import Mathlib

set_option allowUnsafeReducibility true

/-!
Verification of the sentido-financiero statement-extraction pipeline.

This file gives a shallow embedding, in Lean 4, of the parts of the
Python code base that the verified properties talk about:

* `app/services/mexican_parser.py` — the CONDUSEF template parser
  (date/amount parsing, payment/balance/transaction extraction,
  rule-based and batched language-model categorization, validation,
  and the top-level `parse_statement`);
* `app/services/condusef_parser.py` — the table-text transaction
  extractor `_extract_transactions_from_table_text`;
* `app/services/table_extractor.py` — the multi-backend table
  extraction cascade and the `_is_transaction_table` predicate.

Modelling conventions:

* Python strings are `List Char` (or Lean `String`, which wraps a
  `List Char`); `str.upper`/`str.lower` are modelled on the ASCII
  range, which covers every merchant rule and every format indicator
  the properties exercise.
* Python `re` patterns are embedded as values of a small `Regex`
  type together with a backtracking matcher.  Every pattern used by
  the embedded code only repeats single-character classes, so the
  matcher terminates structurally.  `re.search`, `re.match` and
  `re.findall` are `reSearch`, `reFindAt _ _ 0` and `reFindAll`.
* `decimal.Decimal` and `float` applied to the numeric strings the
  code produces are modelled as exact rationals (`ℚ`).
* Python exceptions are modelled with `Except String`; a
  `try/except` block is a `match` on the embedded body.  External
  services (the language model, `json.loads`) are parameters, since
  they are outside the repository.
-/

namespace SentidoFinanciero

/-! ## Python primitives: characters, strings, numbers, dates -/

/-- Python `str.isspace`-style whitespace, i.e. the characters matched
by the regex class `\s` (space, tab, newline, CR, FF, VT). -/
def isPySpace (c : Char) : Bool :=
  c == ' ' || c == '\t' || c == '\n' || c == '\r' ||
  c == Char.ofNat 11 || c == Char.ofNat 12

/-- The regex class `\d`. -/
def isPyDigit (c : Char) : Bool := '0' ≤ c && c ≤ '9'

/-- The regex class `\w` (restricted to ASCII, which covers all inputs
the embedded patterns are applied to). -/
def isPyWord (c : Char) : Bool :=
  isPyDigit c || ('a' ≤ c && c ≤ 'z') || ('A' ≤ c && c ≤ 'Z') || c == '_'

/-- ASCII upper-casing of one character, modelling Python `str.upper`
on the character range the rules and indicators use. -/
def pyUpperChar (c : Char) : Char :=
  if 'a' ≤ c && c ≤ 'z' then Char.ofNat (c.toNat - 32) else c

/-- ASCII lower-casing of one character, modelling Python `str.lower`. -/
def pyLowerChar (c : Char) : Char :=
  if 'A' ≤ c && c ≤ 'Z' then Char.ofNat (c.toNat + 32) else c

def pyUpper (s : List Char) : List Char := s.map pyUpperChar

def pyLower (s : List Char) : List Char := s.map pyLowerChar

/-- Python `str.strip()`: drop leading and trailing whitespace. -/
def pyStrip (s : List Char) : List Char :=
  ((s.dropWhile isPySpace).reverse.dropWhile isPySpace).reverse

/-- `leadsList n h` holds when the list `n` is an initial segment of `h`. -/
def leadsList : List Char → List Char → Bool
  | [], _ => true
  | _ :: _, [] => false
  | a :: as, b :: bs => a == b && leadsList as bs

/-- Python `needle in hay` on strings: substring containment. -/
def containsSub (hay needle : List Char) : Bool :=
  (List.range (hay.length + 1)).any (fun i => leadsList needle (hay.drop i))

/-- Split a string at newline characters, keeping empty pieces, as
Python `str.split("\n")` does. -/
def splitNl (s : List Char) : List (List Char) :=
  let step := fun (c : Char) (acc : List Char × List (List Char)) =>
    if c == '\n' then ([], acc.1 :: acc.2) else (c :: acc.1, acc.2)
  let r := s.foldr step ([], [])
  r.1 :: r.2

/-- Python `str.split()` with no argument: the list of maximal
whitespace-free words. -/
def splitWs (s : List Char) : List (List Char) :=
  let step := fun (c : Char) (acc : List Char × List (List Char)) =>
    if isPySpace c then
      if acc.1.isEmpty then ([], acc.2) else ([], acc.1 :: acc.2)
    else (c :: acc.1, acc.2)
  let r := s.foldr step ([], [])
  if r.1.isEmpty then r.2 else r.1 :: r.2

/-- Fuelled worker for `replaceSub`. -/
def replAux : List Char → List Char → List Char → Nat → List Char
  | _, _, _, 0 => []
  | [], _, _, _ + 1 => []
  | c :: cs, pat, rep, fuel + 1 =>
    if leadsList pat (c :: cs) then
      rep ++ replAux ((c :: cs).drop pat.length) pat rep fuel
    else
      c :: replAux cs pat rep fuel

/-- Replace every occurrence of `pat` (non-empty) in `s` by `rep`,
scanning left to right as Python `str.replace` does. -/
def replaceSub (s pat rep : List Char) : List Char :=
  if pat.isEmpty then s else replAux s pat rep s.length

/-- Numeric value of a list of decimal digits. -/
def digitsVal (l : List Char) : Nat :=
  l.foldl (fun a c => a * 10 + (c.toNat - '0'.toNat)) 0

/-- `decimal.Decimal` applied to the strings `parse_mexican_amount`
produces (an optional integer part, an optional `.`, an optional
fraction part, with at least one digit overall); other inputs raise
`InvalidOperation`, modelled by `none`. -/
def parseDecimalStr (l : List Char) : Option ℚ :=
  let ip := l.takeWhile isPyDigit
  let rest := l.drop ip.length
  match rest with
  | [] => if ip.isEmpty then none else some (digitsVal ip : ℚ)
  | '.' :: fr =>
    if fr.all isPyDigit && !(ip.isEmpty && fr.isEmpty) then
      some ((digitsVal ip : ℚ) + (digitsVal fr : ℚ) / ((10 : ℚ) ^ fr.length))
    else none
  | _ => none

/-- Python `float` applied to a currency string after `$`/`,` removal:
surrounding whitespace is tolerated, then an optional sign directly
followed by digits with an optional fraction part. Invalid inputs
raise `ValueError`, modelled by `none`. -/
def parseFloatStr (l : List Char) : Option ℚ :=
  let t := pyStrip l
  match t with
  | '-' :: rest => (parseDecimalStr rest).map (fun q => -q)
  | '+' :: rest => parseDecimalStr rest
  | _ => parseDecimalStr t

/-- A calendar date as produced by `datetime.strptime`. -/
structure PyDate where
  year : Nat
  month : Nat
  day : Nat
deriving DecidableEq, Repr

def isLeapYear (y : Nat) : Bool :=
  (y % 4 == 0 && y % 100 != 0) || y % 400 == 0

def daysInMonth (y m : Nat) : Nat :=
  if m == 2 then (if isLeapYear y then 29 else 28)
  else if m == 4 || m == 6 || m == 9 || m == 11 then 30
  else 31

/-- Date construction with the validity checks `datetime` performs;
an out-of-range component raises `ValueError`, modelled by `none`. -/
def mkPyDate (y m d : Nat) : Option PyDate :=
  if 1 ≤ y && 1 ≤ m && m ≤ 12 && 1 ≤ d && d ≤ daysInMonth y m then
    some ⟨y, m, d⟩
  else none

/-! ## A small regex engine

The embedded patterns only ever put quantifiers on single-character
classes, so repetition is modelled by `Regex.rep` over a class and
the matcher recurses structurally on the pattern. -/

/-- Capture list: entries `(group, start, stop)` in character offsets. -/
abbrev Caps := List (Nat × Nat × Nat)

inductive Regex where
  | eps : Regex
  | lit : Char → Regex
  | cls : (Char → Bool) → Regex
  | seq : Regex → Regex → Regex
  | alt : Regex → Regex → Regex
  | opt : Regex → Regex
  | rep : (Char → Bool) → Nat → Option Nat → Bool → Regex
  | grp : Nat → Regex → Regex
  | wordB : Regex
  | eol : Regex

/-- Character of `s` at offset `i`, if any. -/
def nthCh (s : List Char) (i : Nat) : Option Char :=
  (s.drop i).head?

def isWordAt (s : List Char) (i : Nat) : Bool :=
  match nthCh s i with
  | some c => isPyWord c
  | none => false

/-- Python `\b`: offsets where word-ness changes. -/
def isWordBoundaryAt (s : List Char) (i : Nat) : Bool :=
  (decide (0 < i) && isWordAt s (i - 1)) != isWordAt s i

/-- Python `$` (without `re.MULTILINE`): the end of the string, or just
before a final newline. -/
def isEolAt (s : List Char) (i : Nat) : Bool :=
  i == s.length ||
  (i + 1 == s.length &&
    (match nthCh s i with | some c => c == '\n' | none => false))

/-- Length of the run of characters of `s` satisfying `p` starting at
offset `i`, capped at `hi` when given. -/
def maxRun (s : List Char) (p : Char → Bool) (i : Nat) (hi : Option Nat) : Nat :=
  let run := ((s.drop i).takeWhile p).length
  match hi with
  | none => run
  | some h => min run h

/-- First position in `l` on which `f` succeeds. -/
def firstSome (l : List Nat) (f : Nat → Option Caps) : Option Caps :=
  match l with
  | [] => none
  | x :: xs =>
    match f x with
    | some r => some r
    | none => firstSome xs f

/-- Backtracking matcher in continuation-passing style.  `reM s r i cp k`
tries to match `r` in `s` starting at offset `i` with captures `cp`,
calling `k` on every candidate end offset in the order Python `re`
would try them (greedy or lazy as the pattern says). -/
def reM (s : List Char) : Regex → Nat → Caps → (Nat → Caps → Option Caps) → Option Caps
  | .eps, i, cp, k => k i cp
  | .lit c, i, cp, k =>
    match nthCh s i with
    | some c2 => if c2 == c then k (i + 1) cp else none
    | none => none
  | .cls p, i, cp, k =>
    match nthCh s i with
    | some c2 => if p c2 then k (i + 1) cp else none
    | none => none
  | .seq a b, i, cp, k => reM s a i cp (fun j cp2 => reM s b j cp2 k)
  | .alt a b, i, cp, k =>
    match reM s a i cp k with
    | some r => some r
    | none => reM s b i cp k
  | .opt a, i, cp, k =>
    match reM s a i cp k with
    | some r => some r
    | none => k i cp
  | .rep p lo hi lz, i, cp, k =>
    let m := maxRun s p i hi
    if m < lo then none
    else
      let offs := List.range (m - lo + 1)
      let positions :=
        if lz then offs.map (fun d => i + lo + d)
        else offs.map (fun d => i + m - d)
      firstSome positions (fun j => k j cp)
  | .grp n a, i, cp, k => reM s a i cp (fun j cp2 => k j ((n, i, j) :: cp2))
  | .wordB, i, cp, k => if isWordBoundaryAt s i then k i cp else none
  | .eol, i, cp, k => if isEolAt s i then k i cp else none

/-- Match anchored at offset `i` (Python `pattern.match` for `i = 0`);
group 0 records the whole match. -/
def reFindAt (s : List Char) (r : Regex) (i : Nat) : Option Caps :=
  reM s r i [] (fun j cp => some ((0, i, j) :: cp))

/-- Python `re.search` from offset `pos`: leftmost successful start. -/
def reSearchFrom (s : List Char) (r : Regex) (pos : Nat) : Option Caps :=
  firstSome ((List.range (s.length + 1 - pos)).map (fun d => pos + d))
    (fun i => reFindAt s r i)

def reSearch (s : List Char) (r : Regex) : Option Caps :=
  reSearchFrom s r 0

/-- Span of capture group `n`. -/
def capSpan (cp : Caps) (n : Nat) : Option (Nat × Nat) :=
  match cp.find? (fun t => t.1 == n) with
  | some t => some t.2
  | none => none

/-- Text of capture group `n`. -/
def capStr (s : List Char) (cp : Caps) (n : Nat) : Option (List Char) :=
  (capSpan cp n).map (fun ij => ((s.drop ij.1).take (ij.2 - ij.1)))

/-- Python `re.findall` (fuelled scan; an empty match advances by one). -/
def reFindAllAux (s : List Char) (r : Regex) : Nat → Nat → List Caps
  | 0, _ => []
  | fuel + 1, pos =>
    if pos > s.length then []
    else
      match reSearchFrom s r pos with
      | none => []
      | some cp =>
        match capSpan cp 0 with
        | some ij =>
          cp :: reFindAllAux s r fuel (if ij.2 == ij.1 then ij.2 + 1 else ij.2)
        | none => []

def reFindAll (s : List Char) (r : Regex) : List Caps :=
  reFindAllAux s r (s.length + 2) 0

/-! Pattern-building helpers mirroring the textual regexes. -/

/-- Concatenation of a list of patterns. -/
def rcat (l : List Regex) : Regex :=
  l.foldr Regex.seq Regex.eps

/-- A literal string. -/
def rstr (xs : String) : Regex :=
  rcat (xs.data.map Regex.lit)

/-- A literal string under `re.IGNORECASE` (ASCII case folding). -/
def rstrCI (xs : String) : Regex :=
  rcat (xs.data.map (fun c =>
    Regex.cls (fun c2 => c2 == pyLowerChar c || c2 == pyUpperChar c)))

/-- Alternation of a list of patterns, left to right. -/
def ralt (l : List Regex) : Regex :=
  match l with
  | [] => Regex.eps
  | [r] => r
  | r :: rs => Regex.alt r (ralt rs)

/-- `p{lo,hi}` (greedy). -/
def rbetween (p : Char → Bool) (lo hi : Nat) : Regex :=
  Regex.rep p lo (some hi) false

/-- `p*` — greedy star over a class. -/
def rstar (p : Char → Bool) : Regex := Regex.rep p 0 none false

/-- `p*?` — lazy star over a class. -/
def rstarL (p : Char → Bool) : Regex := Regex.rep p 0 none true

/-- `p+` — greedy plus over a class. -/
def rplus (p : Char → Bool) : Regex := Regex.rep p 1 none false

/-- `p+?` — lazy plus over a class. -/
def rplusL (p : Char → Bool) : Regex := Regex.rep p 1 none true

/-- `p?` over a class. -/
def ropt1 (p : Char → Bool) : Regex := Regex.rep p 0 (some 1) false

/-- The class `[cs...]` for an explicit character list. -/
def inSet (cs : List Char) (c : Char) : Bool := cs.contains c

/-- The default `.` (anything but a newline). -/
def dotNoNl (c : Char) : Bool := c != '\n'

/-- `.` under `re.DOTALL`. -/
def dotAll (_ : Char) : Bool := true

/-! ## mexican_parser.py — MEXICAN_PATTERNS and the basic parsers -/

/-- The Spanish month abbreviations of `MEXICAN_MONTH_MAP`, in order. -/
def spanishMonths : List String :=
  ["ENE", "FEB", "MAR", "ABR", "MAY", "JUN",
   "JUL", "AGO", "SEP", "OCT", "NOV", "DIC"]

/-- `MEXICAN_MONTH_MAP`: Spanish month abbreviation to month number. -/
def mexicanMonthMap : List (String × Nat) :=
  [("ENE", 1), ("FEB", 2), ("MAR", 3), ("ABR", 4), ("MAY", 5), ("JUN", 6),
   ("JUL", 7), ("AGO", 8), ("SEP", 9), ("OCT", 10), ("NOV", 11), ("DIC", 12)]

/-- The date token `\d{1,2}-\w{3}-\d{4}` used throughout the patterns. -/
def patDateTok : Regex :=
  rcat [rbetween isPyDigit 1 2, Regex.lit '-', rbetween isPyWord 3 3,
        Regex.lit '-', rbetween isPyDigit 4 4]

/-- `mexican_date`: `(\d{1,2})-(ENE|FEB|...|DIC)-(\d{4})`, searched with
`re.IGNORECASE` by `parse_mexican_date`. -/
def patMexicanDate : Regex :=
  rcat [Regex.grp 1 (rbetween isPyDigit 1 2), Regex.lit '-',
        Regex.grp 2 (ralt (spanishMonths.map rstrCI)), Regex.lit '-',
        Regex.grp 3 (rbetween isPyDigit 4 4)]

/-- The amount tail `[\d,]+\.?\d*` common to the amount patterns. -/
def patAmountNum : Regex :=
  rcat [rplus (fun c => isPyDigit c || c == ','),
        ropt1 (fun c => c == '.'), rstar isPyDigit]

/-- `payment_section`: `TU PAGO REQUERIDO ESTE PERIODO`. -/
def patPaymentSection : Regex := rstr "TU PAGO REQUERIDO ESTE PERIODO"

/-- `period_start`: `Periodo:\s*(?:Del\s+)?(\d{1,2}-\w{3}-\d{4})`. -/
def patPeriodStart : Regex :=
  rcat [rstr "Periodo:", rstar isPySpace,
        Regex.opt (rcat [rstr "Del", rplus isPySpace]),
        Regex.grp 1 patDateTok]

/-- `period_end`: `(?:Del\s+\d{1,2}-\w{3}-\d{4}\s+)?al\s+(\d{1,2}-\w{3}-\d{4})`. -/
def patPeriodEnd : Regex :=
  rcat [Regex.opt (rcat [rstr "Del", rplus isPySpace, patDateTok,
                         rplus isPySpace]),
        rstr "al", rplus isPySpace, Regex.grp 1 patDateTok]

/-- `cut_date`: `Fecha de corte:\s*(\d{1,2}-\w{3}-\d{4})`. -/
def patCutDate : Regex :=
  rcat [rstr "Fecha de corte:", rstar isPySpace, Regex.grp 1 patDateTok]

/-- `due_date`: `Fecha límite de pago:\s*\d*\s*([^\n]+?)(?:\n|$)`. -/
def patDueDate : Regex :=
  rcat [rstr "Fecha límite de pago:", rstar isPySpace, rstar isPyDigit,
        rstar isPySpace, Regex.grp 1 (rplusL (fun c => c != '\n')),
        Regex.alt (Regex.lit '\n') Regex.eol]

/-- `pay_no_interest`:
`Pago para no generar intereses:\s*\d*\s*\$?([\d,]+\.?\d*)`. -/
def patPayNoInterest : Regex :=
  rcat [rstr "Pago para no generar intereses:", rstar isPySpace,
        rstar isPyDigit, rstar isPySpace, ropt1 (fun c => c == '$'),
        Regex.grp 1 patAmountNum]

/-- `minimum_payment`:
`Pago mínimo(?: \+ compras y cargo diferidos a meses)?:\s*\d*\s*\$?([\d,]+\.?\d*)`. -/
def patMinimumPayment : Regex :=
  rcat [rstr "Pago mínimo",
        Regex.opt (rstr " + compras y cargo diferidos a meses"),
        Regex.lit ':', rstar isPySpace, rstar isPyDigit, rstar isPySpace,
        ropt1 (fun c => c == '$'), Regex.grp 1 patAmountNum]

/-- `previous_balance`:
`Adeudo del periodo anterior\s*[\=\+\-]?\s*\$?([\d,]+\.?\d*)` (IGNORECASE). -/
def patPreviousBalance : Regex :=
  rcat [rstrCI "Adeudo del periodo anterior", rstar isPySpace,
        ropt1 (inSet ['=', '+', '-']), rstar isPySpace,
        ropt1 (fun c => c == '$'), Regex.grp 1 patAmountNum]

/-- `total_charges`: `Cargos regulares.*?\+\s*\$?([\d,]+\.?\d*)` (IGNORECASE). -/
def patTotalCharges : Regex :=
  rcat [rstrCI "Cargos regulares", rstarL dotNoNl, Regex.lit '+',
        rstar isPySpace, ropt1 (fun c => c == '$'), Regex.grp 1 patAmountNum]

/-- `total_payments`: `Pagos y abonos.*?\-\s*\$?([\d,]+\.?\d*)` (IGNORECASE). -/
def patTotalPayments : Regex :=
  rcat [rstrCI "Pagos y abonos", rstarL dotNoNl, Regex.lit '-',
        rstar isPySpace, ropt1 (fun c => c == '$'), Regex.grp 1 patAmountNum]

/-- `credit_limit`: `Límite de crédito:\s*\$?([\d,]+\.?\d*)` (IGNORECASE). -/
def patCreditLimit : Regex :=
  rcat [rstrCI "Límite de crédito:", rstar isPySpace,
        ropt1 (fun c => c == '$'), Regex.grp 1 patAmountNum]

/-- `available_credit`: `Crédito disponible:\s*\$?([\d,]+\.?\d*)` (IGNORECASE). -/
def patAvailableCredit : Regex :=
  rcat [rstrCI "Crédito disponible:", rstar isPySpace,
        ropt1 (fun c => c == '$'), Regex.grp 1 patAmountNum]

/-- `total_balance`: `Saldo deudor total:\s*\d*\s*\$?([\d,]+\.?\d*)` (IGNORECASE). -/
def patTotalBalance : Regex :=
  rcat [rstrCI "Saldo deudor total:", rstar isPySpace, rstar isPyDigit,
        rstar isPySpace, ropt1 (fun c => c == '$'), Regex.grp 1 patAmountNum]

/-- `transaction_section`: `DESGLOSE DE MOVIMIENTOS`. -/
def patTransactionSection : Regex := rstr "DESGLOSE DE MOVIMIENTOS"

/-- The transaction line pattern of `extract_transactions`:
`(\d{1,2}-\w{3}-\d{4})\s+(\d{1,2}-\w{3}-\d{4})\s+(.+?)\s+([\+\-]?\s*\$?\s*[\d,]+\.?\d*)`. -/
def patTransactionLine : Regex :=
  rcat [Regex.grp 1 patDateTok, rplus isPySpace,
        Regex.grp 2 patDateTok, rplus isPySpace,
        Regex.grp 3 (rplusL dotNoNl), rplus isPySpace,
        Regex.grp 4 (rcat [ropt1 (inSet ['+', '-']), rstar isPySpace,
                           ropt1 (fun c => c == '$'), rstar isPySpace,
                           patAmountNum])]

/-- `card_number`: `[Nn]úmero de tarjeta:\s*(\d{4}\s*\d{4}\s*\d{4}\s*\d{4})`. -/
def patCardNumber : Regex :=
  let d4 := rbetween isPyDigit 4 4
  rcat [Regex.cls (inSet ['N', 'n']), rstr "úmero de tarjeta:",
        rstar isPySpace,
        Regex.grp 1 (rcat [d4, rstar isPySpace, d4, rstar isPySpace, d4,
                           rstar isPySpace, d4])]

/-- The customer-name line heuristic `^([A-Z\s]{10,50})\s*$` as applied
by `extract_customer_info` (`re.match(r"^[A-Z\s]{10,50}$", line)`). -/
def patNameLine : Regex :=
  rcat [rbetween (fun c => ('A' ≤ c && c ≤ 'Z') || isPySpace c) 10 50,
        Regex.eol]

/-- `parse_mexican_date`: search `mexican_date` (IGNORECASE), translate
the month and build the date; any failure yields `None`. -/
def parseMexicanDate (dateStr : List Char) : Option PyDate :=
  match reSearch dateStr patMexicanDate with
  | none => none
  | some cp =>
    match capStr dateStr cp 1, capStr dateStr cp 2, capStr dateStr cp 3 with
    | some day, some mon, some year =>
      match mexicanMonthMap.find? (fun p => p.1.data == pyUpper mon) with
      | some pr => mkPyDate (digitsVal year) pr.2 (digitsVal day)
      | none => none
    | _, _, _ => none

/-- `parse_mexican_amount`: strip `$` and whitespace, read a leading
`-` or `(` as a sign, drop `,()-`, and convert with `Decimal`. -/
def parseMexicanAmount (s : List Char) : Option ℚ :=
  let clean := s.filter (fun c => !(c == '$' || isPySpace c))
  let isNeg :=
    match clean with
    | c :: _ => c == '-' || c == '('
    | [] => false
  let clean2 := clean.filter (fun c => !(c == ',' || c == '(' || c == ')' || c == '-'))
  if clean2.isEmpty then none
  else
    match parseDecimalStr clean2 with
    | some q => some (if isNeg then -q else q)
    | none => none

/-- The ordered bank patterns of `detect_bank` (all IGNORECASE). -/
def bankDetectList : List (String × Regex) :=
  [("BBVA", Regex.alt (rstrCI "BBVA") (rstrCI "Bancomer")),
   ("Santander", rstrCI "Santander"),
   ("Banamex", Regex.alt (rstrCI "Banamex") (rstrCI "Citibanamex")),
   ("HSBC", rstrCI "HSBC"),
   ("Banorte", rstrCI "Banorte"),
   ("Scotiabank", rstrCI "Scotiabank")]

/-- `detect_bank`: first bank whose pattern matches anywhere. -/
def detectBank (text : List Char) : Option String :=
  (bankDetectList.find? (fun bp => (reSearch text bp.2).isSome)).map (fun bp => bp.1)

structure CustomerInfo where
  customer_name : Option String := none
  card_number : Option String := none
  bank_name : Option String := none
deriving DecidableEq, Repr

/-- `extract_customer_info`: bank, 16-digit card number, and the first
all-caps line of at least two words among the first 20 lines. -/
def extractCustomerInfo (text : List Char) : CustomerInfo :=
  let bank := detectBank text
  let card :=
    match reSearch text patCardNumber with
    | some cp =>
      (capStr text cp 1).map (fun l => String.mk (l.filter (fun c => c != ' ')))
    | none => none
  let name :=
    ((splitNl text).take 20).foldl
      (fun acc l =>
        match acc with
        | some _ => acc
        | none =>
          let ls := pyStrip l
          if (reFindAt ls patNameLine 0).isSome && (splitWs ls).length ≥ 2 then
            some (String.mk ls)
          else none)
      none
  { customer_name := name, card_number := card, bank_name := bank }

def b2n (b : Bool) : Nat := if b then 1 else 0

structure PaymentInfo where
  period_start : Option PyDate := none
  period_end : Option PyDate := none
  cut_date : Option PyDate := none
  due_date : Option PyDate := none
  pay_no_interest : Option ℚ := none
  minimum_payment : Option ℚ := none
  confidence : ℚ := 0
deriving DecidableEq, Repr

/-- `extract_payment_info`.  For the two period dates, the cut date and
the two amounts a field counts as found when the pattern matches and
the captured group parses; for the due date the field counts as found
as soon as the pattern matches, whether or not the date parses. -/
def extractPaymentInfo (text : List Char) : PaymentInfo :=
  let ps := (reSearch text patPeriodStart).bind
    (fun cp => (capStr text cp 1).bind parseMexicanDate)
  let pe := (reSearch text patPeriodEnd).bind
    (fun cp => (capStr text cp 1).bind parseMexicanDate)
  let cd := (reSearch text patCutDate).bind
    (fun cp => (capStr text cp 1).bind parseMexicanDate)
  let ddM := reSearch text patDueDate
  let dd := ddM.bind (fun cp => (capStr text cp 1).bind parseMexicanDate)
  let pni := (reSearch text patPayNoInterest).bind
    (fun cp => (capStr text cp 1).bind parseMexicanAmount)
  let mp := (reSearch text patMinimumPayment).bind
    (fun cp => (capStr text cp 1).bind parseMexicanAmount)
  let found := b2n ps.isSome + b2n pe.isSome + b2n cd.isSome +
               b2n ddM.isSome + b2n pni.isSome + b2n mp.isSome
  { period_start := ps, period_end := pe, cut_date := cd, due_date := dd,
    pay_no_interest := pni, minimum_payment := mp,
    confidence := (found : ℚ) / 6 }

structure BalanceInfo where
  previous_balance : Option ℚ := none
  total_charges : Option ℚ := none
  total_payments : Option ℚ := none
  credit_limit : Option ℚ := none
  available_credit : Option ℚ := none
  total_balance : Option ℚ := none
  confidence : ℚ := 0
deriving DecidableEq, Repr

/-- `extract_balance_info`: six IGNORECASE amount patterns; a field
counts when the pattern matches and the amount parses. -/
def extractBalanceInfo (text : List Char) : BalanceInfo :=
  let g := fun (r : Regex) =>
    (reSearch text r).bind (fun cp => (capStr text cp 1).bind parseMexicanAmount)
  let pb := g patPreviousBalance
  let tc := g patTotalCharges
  let tp := g patTotalPayments
  let cl := g patCreditLimit
  let ac := g patAvailableCredit
  let tb := g patTotalBalance
  let found := b2n pb.isSome + b2n tc.isSome + b2n tp.isSome +
               b2n cl.isSome + b2n ac.isSome + b2n tb.isSome
  { previous_balance := pb, total_charges := tc, total_payments := tp,
    credit_limit := cl, available_credit := ac, total_balance := tb,
    confidence := (found : ℚ) / 6 }

structure MxTransaction where
  operation_date : PyDate
  charge_date : PyDate
  description : String
  amount : ℚ
  transaction_type : String
  category : Option String := none
deriving DecidableEq, Repr

/-- `extract_transactions`: locate `DESGLOSE DE MOVIMIENTOS`, scan the
next 10000 characters with the transaction line pattern, keep the
matches whose two dates and amount parse, and report
`successful / total` as the confidence (0 when there is no section or
no match). -/
def extractTransactions (text : List Char) : List MxTransaction × ℚ :=
  match reSearch text patTransactionSection with
  | none => ([], 0)
  | some cp0 =>
    match capSpan cp0 0 with
    | none => ([], 0)
    | some ij =>
      let ttext := (text.drop ij.2).take 10000
      let ms := reFindAll ttext patTransactionLine
      let step := fun (acc : List MxTransaction × Nat) (m : Caps) =>
        match capStr ttext m 1, capStr ttext m 2,
              capStr ttext m 3, capStr ttext m 4 with
        | some d1, some d2, some ds, some am =>
          match parseMexicanDate d1, parseMexicanDate d2,
                parseMexicanAmount am with
          | some od, some cd, some a =>
            (acc.1 ++ [{ operation_date := od, charge_date := cd,
                         description := String.mk (pyStrip ds), amount := a,
                         transaction_type := if a < 0 then "DEBIT" else "CREDIT" }],
             acc.2 + 1)
          | _, _, _ => acc
        | _, _, _, _ => acc
      let r := ms.foldl step ([], 0)
      let conf : ℚ := if ms.length == 0 then 0 else (r.2 : ℚ) / (ms.length : ℚ)
      (r.1, conf)

/-! ## mexican_parser.py — MEXICAN_MERCHANT_RULES and the categorizer -/

/-- `MEXICAN_MERCHANT_RULES["exact_match"]`, in source (insertion) order. -/
def exactMatchRules : List (String × String) :=
  [("OXXO", "alimentacion"), ("WALMART", "alimentacion"),
   ("SORIANA", "alimentacion"), ("CHEDRAUI", "alimentacion"),
   ("HEB", "alimentacion"), ("LA COMER", "alimentacion"),
   ("SUPERAMA", "alimentacion"), ("WALMART EXPRESS", "alimentacion"),
   ("BODEGA AURRERA", "alimentacion"), ("COSTCO", "alimentacion"),
   ("SAMS CLUB", "alimentacion"), ("FRESKO", "alimentacion"),
   ("CITY MARKET", "alimentacion"), ("ALSUPER", "alimentacion"),
   ("CALIMAX", "alimentacion"), ("LEY", "alimentacion"),
   ("SMART & FINAL", "alimentacion"), ("7-ELEVEN", "alimentacion"),
   ("CIRCLE K", "alimentacion"), ("EXTRA", "alimentacion"),
   ("GO MART", "alimentacion"), ("LIVERPOOL", "ropa"),
   ("PALACIO DE HIERRO", "ropa"), ("SEARS", "otros"),
   ("SUBURBIA", "ropa"), ("COPPEL", "otros"), ("ELEKTRA", "otros"),
   ("SANBORNS", "alimentacion"), ("ZARA", "ropa"), ("BERSHKA", "ropa"),
   ("PULL&BEAR", "ropa"), ("STRADIVARIUS", "ropa"), ("H&M", "ropa"),
   ("OLD NAVY", "ropa"), ("GAP", "ropa"), ("C&A", "ropa"),
   ("DOROTHY GAYNOR", "ropa"), ("JULIO", "ropa"), ("MASSIMO DUTTI", "ropa"),
   ("FARMACIAS GUADALAJARA", "salud"), ("FARMACIA DEL AHORRO", "salud"),
   ("FARMACIAS BENAVIDES", "salud"), ("FARMACIAS SAN PABLO", "salud"),
   ("FARMACIAS SIMILARES", "salud"), ("PEMEX", "gasolineras"),
   ("BP", "gasolineras"), ("SHELL", "gasolineras"), ("G500", "gasolineras"),
   ("MOBIL", "gasolineras"), ("REPSOL", "gasolineras"),
   ("ORZAN", "gasolineras"), ("PETRO SEVEN", "gasolineras"),
   ("STARBUCKS", "alimentacion"), ("MCDONALDS", "alimentacion"),
   ("BURGER KING", "alimentacion"), ("KFC", "alimentacion"),
   ("DOMINOS PIZZA", "alimentacion"), ("PIZZA HUT", "alimentacion"),
   ("SUBWAY", "alimentacion"), ("VIPS", "alimentacion"),
   ("TOKS", "alimentacion"), ("EL GLOBO", "alimentacion"),
   ("LA CASA DE TOÑO", "alimentacion"), ("ITALIANNIS", "alimentacion"),
   ("CHILIS", "alimentacion"), ("P.F. CHANGS", "alimentacion"),
   ("UBER", "transporte"), ("DIDI", "transporte"), ("CABIFY", "transporte"),
   ("ADO", "transporte"), ("ETN", "transporte"),
   ("PRIMERA PLUS", "transporte"), ("VIVA AEROBUS", "transporte"),
   ("AEROMEXICO", "transporte"), ("VOLARIS", "transporte"),
   ("METRO CDMX", "transporte"), ("METROBUS CDMX", "transporte"),
   ("CINEPOLIS", "entretenimiento"), ("CINEMEX", "entretenimiento"),
   ("TICKETMASTER", "entretenimiento"), ("OCESA", "entretenimiento"),
   ("SIX FLAGS", "entretenimiento"), ("KIDZANIA", "entretenimiento"),
   ("NETFLIX", "servicios"), ("SPOTIFY", "servicios"),
   ("AMAZON PRIME VIDEO", "servicios"), ("HBO MAX", "servicios"),
   ("MAX", "servicios"), ("DISNEY PLUS", "servicios"),
   ("APPLE.COM/BILL", "servicios"), ("GOOGLE SERVICES", "servicios"),
   ("CFE", "servicios"), ("TELMEX", "servicios"), ("TOTALPLAY", "servicios"),
   ("IZZI", "servicios"), ("MEGACABLE", "servicios"), ("SKY", "servicios"),
   ("TELCEL", "servicios"), ("AT&T", "servicios"), ("MOVISTAR", "servicios"),
   ("SACMEX", "servicios"), ("GAS NATURAL", "servicios"),
   ("HOME DEPOT", "otros"), ("LOWES", "otros"), ("RADIOSHACK", "otros"),
   ("BEST BUY", "otros"), ("STEREN", "otros"), ("UDEMY", "educacion"),
   ("COURSERA", "educacion"), ("PLATZI", "educacion"),
   ("MERCADO LIBRE", "otros"), ("AMAZON", "otros"), ("PAYPAL", "otros"),
   ("CLIP", "otros"), ("SR PAGO", "otros"), ("CONEKTA", "otros")]

/-- `\b( w1 | w2 | ... )\b` with literal alternatives. -/
def wbAlt (ws : List String) : Regex :=
  rcat [Regex.wordB, Regex.grp 1 (ralt (ws.map rstr)), Regex.wordB]

/-- `MEXICAN_MERCHANT_RULES["pattern_match"]`, in source order. -/
def patternMatchRules : List (Regex × String) :=
  [(wbAlt ["REST", "RESTAURANT", "RESTAURANTE", "COMIDA", "ALIMENTO",
           "COCINA", "BISTRO", "CAFE", "CAFETERIA"], "alimentacion"),
   (wbAlt ["SUPERMERCADO", "SUPER MARKET", "MINISUPER", "ABARROTES",
           "TIENDA DE CONVENIENCIA"], "alimentacion"),
   (wbAlt ["PANADERIA", "PASTELERIA", "DULCERIA"], "alimentacion"),
   (wbAlt ["CARNICERIA", "PESCADERIA", "VERDULERIA"], "alimentacion"),
   (wbAlt ["GAS", "GASOLINERA", "ESTACION DE SERVICIO", "PEMEX", "SHELL",
           "BP", "MOBIL", "REPSOL"], "gasolineras"),
   (wbAlt ["AUTOZONE", "REFACCIONARIA", "TALLER MECANICO", "LLANTAS"],
    "transporte"),
   (wbAlt ["ESTACIONAMIENTO", "PENSION", "PARQUIMETRO"], "transporte"),
   (wbAlt ["FARM", "FARMACIA", "BOTICA"], "salud"),
   (rcat [Regex.wordB,
          Regex.grp 1 (ralt (["DR", "DRA", "DOCTOR", "DOCTORA", "MEDICO",
                              "CONSULTORIO"].map rstr)),
          rplus isPySpace, rplus isPyWord], "salud"),
   (wbAlt ["HOSPITAL", "CLINICA", "SANATORIO", "LABORATORIO",
           "ANALISIS CLINICOS", "SALUD"], "salud"),
   (wbAlt ["DENTAL", "DENTISTA", "ODONTOLOGO"], "salud"),
   (wbAlt ["OPTICA", "OCULISTA"], "salud"),
   (rcat [Regex.wordB,
          Regex.grp 1 (rcat [rstr "VETERINARI",
                             Regex.cls (inSet ['O', 'A'])]),
          Regex.wordB], "salud"),
   (wbAlt ["UBER", "DIDI", "CABIFY", "TAXI", "TRANSPORTE", "PASAJES",
           "PEAJE", "CASETA"], "transporte"),
   (wbAlt ["AEROLINEA", "VUELO", "AEROPUERTO", "BOLETO DE AVION"],
    "transporte"),
   (wbAlt ["AUTOBUS", "CAMION", "TERMINAL DE AUTOBUSES"], "transporte"),
   (wbAlt ["CINE", "CINEMA", "TEATRO", "CONCIERTO", "EVENTO", "BOLETO",
           "ENTRETENIMIENTO"], "entretenimiento"),
   (wbAlt ["BAR", "CANTINA", "CLUB NOCTURNO", "ANTRO"], "entretenimiento"),
   (wbAlt ["VIDEOJUEGOS", "GAMING", "STEAM", "XBOX", "PLAYSTATION"],
    "entretenimiento"),
   (wbAlt ["MUSEO", "GALERIA"], "entretenimiento"),
   (wbAlt ["TIENDA", "BOUTIQUE", "ZAPATERIA", "JOYERIA", "REGALOS",
           "PAPELERIA"], "ropa"),
   (wbAlt ["LIBRERIA"], "educacion"),
   (wbAlt ["JUGUETERIA"], "otros"),
   (wbAlt ["LUZ", "ELECTRICIDAD", "CFE"], "servicios"),
   (wbAlt ["AGUA", "SAPAL", "SACM"], "servicios"),
   (wbAlt ["TELEFONO", "INTERNET", "CABLE", "WIFI"], "servicios"),
   (wbAlt ["GASOLINERA"], "gasolineras"),
   (wbAlt ["GOBIERNO", "IMPUESTO", "TENENCIA", "PREDIAL", "SAT",
           "TESORERIA"], "servicios"),
   (wbAlt ["GYM", "GIMNASIO", "FITNESS", "DEPORTE", "SPORT"], "salud"),
   (wbAlt ["HOTEL", "MOTEL", "HOSTAL", "ALOJAMIENTO", "AIRBNB"], "otros"),
   (wbAlt ["UNIVERSIDAD", "COLEGIO", "ESCUELA", "INSTITUTO",
           "CAPACITACION", "CURSO"], "educacion"),
   (wbAlt ["COLEGIATURA", "INSCRIPCION"], "educacion"),
   (wbAlt ["SEGURO", "ASEGURADORA", "POLIZA", "GNP", "AXA", "METLIFE",
           "QUALITAS"], "seguros"),
   (wbAlt ["TRANSFERENCIA", "SPEI", "DEPOSITO", "ENVIO"], "transferencias"),
   (wbAlt ["INTERES", "INTERESES", "COMISION", "CARGO", "IVA"],
    "intereses_comisiones"),
   (wbAlt ["RETIRO", "DISPOSICION DE EFECTIVO", "CAJERO", "ATM"],
    "transferencias"),
   (wbAlt ["AFORE", "PENSION"], "otros"),
   (wbAlt ["MUEBLERIA", "DECORACION", "CASA"], "otros"),
   (wbAlt ["LAVANDERIA", "TINTORERIA"], "servicios"),
   (wbAlt ["FERRETERIA", "TLAPALERIA"], "otros")]

/-- `MEXICAN_MERCHANT_RULES["contains_match"]`, in source order. -/
def containsMatchRules : List (String × String) :=
  [("TACO", "alimentacion"), ("PIZZA", "alimentacion"),
   ("SUSHI", "alimentacion"), ("HAMBURGUESA", "alimentacion"),
   ("CAFE", "alimentacion"), ("HELADO", "alimentacion"),
   ("POSTRE", "alimentacion"), ("VINO", "alimentacion"),
   ("CERVEZA", "alimentacion"), ("MODA", "ropa"), ("LIBRO", "educacion"),
   ("FLORES", "otros"), ("VIAJE", "transporte"), ("CONSULTA", "salud"),
   ("SERVICIO", "servicios"), ("COMPRA EN LINEA", "otros"),
   ("ONLINE", "otros"), ("DIGITAL", "servicios"), ("APP", "servicios"),
   ("SUSCRIPCION", "servicios")]

/-- Tier 1 of the categorizer: the first exact-match rule whose merchant
name occurs in the upper-cased description. -/
def tierExact (du : List Char) : Option String :=
  (exactMatchRules.find? (fun r => containsSub du r.1.data)).map (fun r => r.2)

/-- Tier 2: the first pattern-match rule whose regex matches. -/
def tierPattern (du : List Char) : Option String :=
  (patternMatchRules.find? (fun r => (reSearch du r.1).isSome)).map (fun r => r.2)

/-- Tier 3: the first contains-match rule whose keyword occurs. -/
def tierContains (du : List Char) : Option String :=
  (containsMatchRules.find? (fun r => containsSub du r.1.data)).map (fun r => r.2)

/-- `categorize_mexican_transaction`: empty or all-whitespace
descriptions give `None`; otherwise tiers 1, 2 and 3 run in order on
the upper-cased description and the first match wins. -/
def categorizeMexicanTransaction (description : String) : Option String :=
  if (pyStrip description.data).isEmpty then none
  else
    match tierExact (pyUpper description.data) with
    | some c => some c
    | none =>
      match tierPattern (pyUpper description.data) with
      | some c => some c
      | none => tierContains (pyUpper description.data)

/-! ## mexican_parser.py — batched language-model categorization -/

/-- The JSON values `json.loads` can return. -/
inductive PyJson where
  | obj : List (String × PyJson) → PyJson
  | arr : List PyJson → PyJson
  | jstr : String → PyJson
  | jnum : ℚ → PyJson
  | jbool : Bool → PyJson
  | jnull : PyJson

/-- The semantics of `json.loads` (an external library): either a
parsed value or a `JSONDecodeError`. -/
abbrev JLoads := String → Except String PyJson

/-- The language-model boundary (an external service):
`is_available()` plus `invoke`, which receives the batch of unique
descriptions the prompt is built from and either answers with raw
text or raises. -/
structure LLMEnv where
  available : Bool
  invoke : List String → Except String String

/-- The regex `\{.*\}` with `re.DOTALL`: from the first opening brace
to the last closing brace. -/
def patJsonBlock : Regex :=
  rcat [Regex.lit '{', rstar dotAll, Regex.lit '}']

def braceBlock (s : List Char) : Option (List Char) :=
  (reSearch s patJsonBlock).bind (fun cp => capStr s cp 0)

/-- Python dict assignment `m[k] = v` on an insertion-ordered map. -/
def assocSet (m : List (String × String)) (k v : String) :
    List (String × String) :=
  if m.any (fun p => p.1 == k) then
    m.map (fun p => if p.1 == k then (k, v) else p)
  else m ++ [(k, v)]

def assocGet (m : List (String × String)) (k : String) : Option String :=
  (m.find? (fun p => p.1 == k)).map (fun p => p.2)

/-- Deduplication keeping first occurrences (the membership semantics
of the Python `set`/`list(set(...))` used for category values and
uncategorized descriptions; only membership is ever relied upon). -/
def dedupFirst (l : List String) : List String :=
  l.foldl (fun acc s => if acc.contains s then acc else acc ++ [s]) []

/-- `list(set(MEXICAN_MERCHANT_RULES["exact_match"].values()))`. -/
def validCategories : List String :=
  dedupFirst (exactMatchRules.map (fun r => r.2))

/-- One iteration of the `for desc, cat in parsed.items()` loop:
non-string values are skipped; string values are lower-cased,
stripped, validated against the category set with an "otros"
fallback, and stored. -/
def batchStep (acc : List (String × String)) (kv : String × PyJson) :
    List (String × String) :=
  match kv.2 with
  | PyJson.jstr cat =>
    let catL := String.mk (pyStrip (pyLower cat.data))
    let c2 := if validCategories.contains catL then catL else "otros"
    assocSet acc kv.1 c2
  | _ => acc

/-- `_categorize_batch_with_llm` with its exception behaviour explicit:
the result is `Except.error` only if an exception would escape the
function (none can — the outer handler catches everything).  A missing
brace block or a `JSONDecodeError` returns the empty mapping from
inside the `try`; a non-object JSON value raises `ValueError`, which
only the outer handler catches. -/
def batchCategorizeRaw (jl : JLoads) (env : LLMEnv) (descs : List String) :
    Except String (List (String × String)) :=
  if !env.available || descs.isEmpty then Except.ok []
  else
    let attempt : Except String (List (String × String)) :=
      match env.invoke descs with
      | Except.error e => Except.error e
      | Except.ok response =>
        let resp := pyStrip response.data
        match braceBlock resp with
        | none => Except.ok []
        | some js =>
          match jl (String.mk js) with
          | Except.error _ => Except.ok []
          | Except.ok (PyJson.obj items) =>
            Except.ok (items.foldl batchStep [])
          | Except.ok _ => Except.error "Response is not a JSON object"
    match attempt with
    | Except.ok r => Except.ok r
    | Except.error _ => Except.ok []

/-- The value `_categorize_batch_with_llm` returns to its caller. -/
def batchCategorizeWithLLM (jl : JLoads) (env : LLMEnv)
    (descs : List String) : List (String × String) :=
  match batchCategorizeRaw jl env descs with
  | Except.ok r => r
  | Except.error _ => []

/-! ## mexican_parser.py — validation and parse_statement -/

structure ValidationResult where
  is_valid : Bool
  confidence : ℚ
  errors : List String
  warnings : List String
deriving DecidableEq, Repr

/-- The dictionary `validate_extraction` receives; every key is
optional since the function itself tests for presence. -/
structure PyExtractedData where
  customer_info : Option CustomerInfo := none
  payment_info : Option PaymentInfo := none
  balance_info : Option BalanceInfo := none
  transactions : Option (List MxTransaction) := none
  transactions_confidence : Option ℚ := none
deriving DecidableEq, Repr

/-- The `missing_fields` list comprehension of `validate_extraction`,
in the order `customer_info, payment_info, balance_info, transactions`. -/
def vMissing (d : PyExtractedData) : List String :=
  (if d.customer_info.isNone then ["customer_info"] else []) ++
  (if d.payment_info.isNone then ["payment_info"] else []) ++
  (if d.balance_info.isNone then ["balance_info"] else []) ++
  (if d.transactions.isNone then ["transactions"] else [])

/-- `validation_result` after the missing-fields check. -/
def vBase (d : PyExtractedData) : ValidationResult :=
  if !(vMissing d).isEmpty then
    { is_valid := false, confidence := 0,
      errors := ["Missing required fields"], warnings := [] }
  else
    { is_valid := true, confidence := 0, errors := [], warnings := [] }

/-- The `confidence_scores` list: payment, balance, transactions. -/
def vScores (d : PyExtractedData) : List ℚ :=
  (match d.payment_info with | some p => [p.confidence] | none => []) ++
  (match d.balance_info with | some b => [b.confidence] | none => []) ++
  (match d.transactions_confidence with | some c => [c] | none => [])

/-- `validation_result` after the overall-confidence computation
(`sum / len` when any score is available). -/
def vWithConf (d : PyExtractedData) : ValidationResult :=
  if !(vScores d).isEmpty then
    { vBase d with confidence := (vScores d).sum / ((vScores d).length : ℚ) }
  else vBase d

/-- `validation_result` after the transaction-count check, which only
appends warnings. -/
def vWithWarn (d : PyExtractedData) : ValidationResult :=
  match d.transactions with
  | some ts =>
    if ts.length == 0 then
      { vWithConf d with
        warnings := (vWithConf d).warnings ++ ["No transactions found"] }
    else if ts.length > 1000 then
      { vWithConf d with
        warnings := (vWithConf d).warnings ++ ["Unusually high transaction count"] }
    else vWithConf d
  | none => vWithConf d

/-- `validate_extraction`: missing required fields invalidate; the
confidence is the mean of the available payment, balance and
transaction sub-confidences; a zero or >1000 transaction count only
adds a warning; a combined score below 0.6 invalidates.  The sequence
`vBase` → `vWithConf` → `vWithWarn` mirrors the successive updates to
`validation_result` in the source. -/
def validateExtraction (d : PyExtractedData) : ValidationResult :=
  if (vWithWarn d).confidence < 3 / 5 then
    { vWithWarn d with
      is_valid := false
      errors := (vWithWarn d).errors ++ ["Low confidence score"] }
  else vWithWarn d

/-- `validate_extraction` as a state transformer on its argument: the
Python body only reads `extracted_data` (it writes exclusively into
the fresh `validation_result` dict), so the embedded call leaves the
extracted data exactly as it received it. -/
def validateExtractionSt (d : PyExtractedData) :
    PyExtractedData × ValidationResult :=
  (d, validateExtraction d)

/-- The indicator lists of `_validate_mexican_format`. -/
def condusefIndicators : List String :=
  ["TU PAGO REQUERIDO", "DESGLOSE DE MOVIMIENTOS",
   "PAGO PARA NO GENERAR INTERESES", "CARGOS, ABONOS Y COMPRAS REGULARES",
   "SALDO DEUDOR TOTAL", "LÍMITE DE CRÉDITO", "CRÉDITO DISPONIBLE"]

def mexicanBanksList : List String :=
  ["SANTANDER", "BBVA", "BANAMEX", "BANORTE", "HSBC", "SCOTIABANK",
   "CITIBANAMEX", "INBURSA", "BANCO AZTECA"]

def creditTermsList : List String :=
  ["TARJETA DE CRÉDITO", "TARJETA DE CREDITO", "ESTADO DE CUENTA",
   "FECHA DE CORTE", "PAGO MÍNIMO", "PAGO MINIMO"]

/-- `\d{1,2}-(ENE|...|DIC)-\d{4}` (searched on the upper-cased text). -/
def patValDate1 : Regex :=
  rcat [rbetween isPyDigit 1 2, Regex.lit '-',
        Regex.grp 1 (ralt (spanishMonths.map rstr)), Regex.lit '-',
        rbetween isPyDigit 4 4]

/-- `(ENE|...|DIC)-\d{1,2}` (searched on the upper-cased text). -/
def patValDate2 : Regex :=
  rcat [Regex.grp 1 (ralt (spanishMonths.map rstr)), Regex.lit '-',
        rbetween isPyDigit 1 2]

/-- `\$\s*[\d,]+\.?\d*`. -/
def patValAmount1 : Regex :=
  rcat [Regex.lit '$', rstar isPySpace, patAmountNum]

/-- `[\d,]+\.\d{2}`. -/
def patValAmount2 : Regex :=
  rcat [rplus (fun c => isPyDigit c || c == ','), Regex.lit '.',
        rbetween isPyDigit 2 2]

/-- `_validate_mexican_format`: the exact payment-section phrase, or
the scored combination of CONDUSEF indicators, bank names, credit
terms, date and amount shapes, or the transaction-table header. -/
def validateMexicanFormat (text : List Char) : Bool :=
  if (reSearch text patPaymentSection).isSome then true
  else
    let tu := pyUpper text
    let condusefScore :=
      (condusefIndicators.filter (fun s => containsSub tu s.data)).length
    let bankScore :=
      (mexicanBanksList.filter (fun s => containsSub tu s.data)).length
    let creditScore :=
      (creditTermsList.filter (fun s => containsSub tu s.data)).length
    let dateScore := b2n (reSearch tu patValDate1).isSome +
                     b2n (reSearch tu patValDate2).isSome
    let amountScore := b2n (reSearch text patValAmount1).isSome +
                       b2n (reSearch text patValAmount2).isSome
    let hasTxHeader := containsSub tu "DESGLOSE DE MOVIMIENTOS".data
    if condusefScore ≥ 2 then true
    else if bankScore ≥ 1 && creditScore ≥ 1 &&
            (dateScore ≥ 1 || amountScore ≥ 1) then true
    else if hasTxHeader then true
    else if bankScore + creditScore + dateScore + amountScore ≥ 4 then true
    else false

/-- The `parse_statement` result dictionary. -/
structure ParseResult where
  success : Bool
  confidence : ℚ
  error : Option String := none
  data : Option PyExtractedData := none
  validation : Option ValidationResult := none
  extraction_method : Option String := none
deriving DecidableEq, Repr

/-- The rule-tier categorization step of the `parse_statement` loop:
the matched category, or the provisional "otros". -/
def ruleTag (t : MxTransaction) : MxTransaction :=
  match categorizeMexicanTransaction t.description with
  | some c => { t with category := some c }
  | none => { t with category := some "otros" }

/-- The `uncategorized` set built during the loop, as a list in first
occurrence order (only membership is ever relied upon). -/
def uncatOf (ts : List MxTransaction) : List String :=
  dedupFirst (ts.filterMap (fun t =>
    if (categorizeMexicanTransaction t.description).isNone then
      some t.description
    else none))

/-- The `if llm_results:` override loop of `parse_statement`. -/
def applyOverrides (m : List (String × String))
    (ts : List MxTransaction) : List MxTransaction :=
  if m.isEmpty then ts
  else ts.map (fun t =>
    match assocGet m t.description with
    | some c => { t with category := some c }
    | none => t)

/-- The `extracted_data` dictionary assembled by `parse_statement`:
the three section extractions, the transactions after rule
categorization and any language-model overrides, and the transaction
confidence. -/
def psData (text : String) (llmResults : List (String × String)) :
    PyExtractedData :=
  { customer_info := some (extractCustomerInfo text.data),
    payment_info := some (extractPaymentInfo text.data),
    balance_info := some (extractBalanceInfo text.data),
    transactions := some (applyOverrides llmResults
      ((extractTransactions text.data).1.map ruleTag)),
    transactions_confidence := some (extractTransactions text.data).2 }

/-- The body of the `try` block of `parse_statement`: extraction,
rule-based categorization with the "otros" floor, the single batched
language-model call on deduplicated uncategorized descriptions, the
conditional override, and validation.  The only fallible step is the
batch call, whose internal handlers already make it total. -/
def parseStatementBody (jl : JLoads) (env : LLMEnv) (text : String) :
    Except String ParseResult :=
  match (if (uncatOf (extractTransactions text.data).1).isEmpty then
           Except.ok []
         else batchCategorizeRaw jl env
           (uncatOf (extractTransactions text.data).1)) with
  | Except.error e => Except.error e
  | Except.ok llmResults =>
    Except.ok
      { success := (validateExtraction (psData text llmResults)).is_valid,
        data := some (psData text llmResults),
        validation := some (validateExtraction (psData text llmResults)),
        confidence := (validateExtraction (psData text llmResults)).confidence,
        extraction_method := some "mexican_template" }

/-- `parse_statement`: the format gate, then the `try` body with its
catch-all handler mapping any internal error to a failure dictionary. -/
def parseStatement (jl : JLoads) (env : LLMEnv) (text : String) :
    ParseResult :=
  if !(validateMexicanFormat text.data) then
    { success := false, confidence := 0,
      error := some "Statement format not recognized as Mexican CONDUSEF standard" }
  else
    match parseStatementBody jl env text with
    | Except.ok r => r
    | Except.error e => { success := false, confidence := 0, error := some e }

/-- `parse_statement` with exception propagation explicit: an
`Except.error` here would be an exception escaping to the caller.
The format gate is total and the catch-all handler converts every
body error into a failure dictionary, so no error ever escapes. -/
def parseStatementRaw (jl : JLoads) (env : LLMEnv) (text : String) :
    Except String ParseResult :=
  if !(validateMexicanFormat text.data) then
    Except.ok { success := false, confidence := 0,
                error := some "Statement format not recognized as Mexican CONDUSEF standard" }
  else
    match parseStatementBody jl env text with
    | Except.ok r => Except.ok r
    | Except.error e =>
      Except.ok { success := false, confidence := 0, error := some e }

/-! ## condusef_parser.py — dates, amounts and the table-text extractor -/

/-- `SPANISH_MONTHS_SHORT`, in source order. -/
def spanishEnglishPairs : List (String × String) :=
  [("ENE", "JAN"), ("FEB", "FEB"), ("MAR", "MAR"), ("ABR", "APR"),
   ("MAY", "MAY"), ("JUN", "JUN"), ("JUL", "JUL"), ("AGO", "AUG"),
   ("SEP", "SEP"), ("OCT", "OCT"), ("NOV", "NOV"), ("DIC", "DEC")]

/-- English month abbreviations understood by `strptime` `%b`. -/
def englishMonthMap : List (String × Nat) :=
  [("JAN", 1), ("FEB", 2), ("MAR", 3), ("APR", 4), ("MAY", 5), ("JUN", 6),
   ("JUL", 7), ("AUG", 8), ("SEP", 9), ("OCT", 10), ("NOV", 11), ("DEC", 12)]

/-- `_normalize_date_spanish`: upper-case and substitute each Spanish
month abbreviation in turn. -/
def normalizeDateSpanish (s : List Char) : List Char :=
  spanishEnglishPairs.foldl
    (fun acc p => replaceSub (pyUpper acc) p.1.data p.2.data) s

/-- `datetime.strptime` restricted to the day/month/year formats the
source uses: day of 1-2 digits, a separator, either a 3-letter month
abbreviation (`%b`) or a 1-2 digit month number (`%m`), a separator,
and a 4-digit (`%Y`) or exactly-2-digit (`%y`, with the 1969/2068
pivot) year; the whole string must be consumed and the date must be a
real calendar date. -/
def strptimeDMY (sep1 sep2 : Char) (abbrMonth year2 : Bool)
    (s : List Char) : Option PyDate :=
  let dtok := s.takeWhile isPyDigit
  if dtok.isEmpty || dtok.length > 2 then none
  else
    match s.drop dtok.length with
    | [] => none
    | c1 :: r2 =>
      if c1 != sep1 then none
      else
        let mres : Option (Nat × List Char) :=
          if abbrMonth then
            if r2.length < 3 then none
            else
              match englishMonthMap.find?
                  (fun p => p.1.data == pyUpper (r2.take 3)) with
              | some p => some (p.2, r2.drop 3)
              | none => none
          else
            let mtok := r2.takeWhile isPyDigit
            if mtok.isEmpty || mtok.length > 2 then none
            else some (digitsVal mtok, r2.drop mtok.length)
        match mres with
        | none => none
        | some mv =>
          match mv.2 with
          | [] => none
          | c2 :: r4 =>
            if c2 != sep2 then none
            else
              let ytok := r4.takeWhile isPyDigit
              if year2 then
                if ytok.length == 2 && (r4.drop 2).isEmpty then
                  let yy := digitsVal (ytok.take 2)
                  mkPyDate (if yy ≤ 68 then 2000 + yy else 1900 + yy)
                    mv.1 (digitsVal dtok)
                else none
              else
                if !ytok.isEmpty && ytok.length ≤ 4 &&
                   (r4.drop ytok.length).isEmpty then
                  mkPyDate (digitsVal ytok) mv.1 (digitsVal dtok)
                else none

/-- `_parse_date` with its default formats `["%d-%b-%Y", "%d/%m/%Y"]`. -/
def condusefParseDate (s : List Char) : Option PyDate :=
  if s.isEmpty then none
  else
    let n := normalizeDateSpanish s
    match strptimeDMY '-' '-' true false n with
    | some d => some d
    | none => strptimeDMY '/' '/' false false n

/-- `_parse_amount`: drop `$` and `,`, then `float`. -/
def condusefParseAmount (s : List Char) : Option ℚ :=
  if s.isEmpty then none
  else parseFloatStr (s.filter (fun c => !(c == '$' || c == ',')))

/-- Split on a separator character, keeping empty pieces. -/
def splitOnChar (sep : Char) (s : List Char) : List (List Char) :=
  let step := fun (c : Char) (acc : List Char × List (List Char)) =>
    if c == sep then ([], acc.1 :: acc.2) else (c :: acc.1, acc.2)
  let r := s.foldr step ([], [])
  r.1 :: r.2

/-- `_parse_date_with_year_context`: a 4-digit group means a full
year; a trailing 2-digit group in the last `-`/space piece means a
`%y` year (falling through to the context formats when neither `%y`
format fits); otherwise the statement-period year is appended. -/
def condusefParseDateWithYearContext (dateStr : List Char)
    (yearContext : Nat) : Option PyDate :=
  let n := normalizeDateSpanish (pyUpper dateStr)
  if (reSearch n (rbetween isPyDigit 4 4)).isSome then
    match strptimeDMY '-' '-' true false n with
    | some d => some d
    | none =>
      match strptimeDMY ' ' ' ' true false n with
      | some d => some d
      | none => strptimeDMY '/' '/' true false n
  else
    let lastDash :=
      match (splitOnChar '-' n).getLast? with
      | some p => p
      | none => n
    let lastPiece :=
      match (splitOnChar ' ' lastDash).getLast? with
      | some p => p
      | none => lastDash
    let endsWith2Digits := (lastPiece.reverse.takeWhile isPyDigit).length ≥ 2
    let tryYY : Option PyDate :=
      if endsWith2Digits then
        match strptimeDMY '-' '-' true true n with
        | some d => some d
        | none => strptimeDMY ' ' ' ' true true n
      else none
    match tryYY with
    | some d => some d
    | none =>
      let n2 := n ++ (' ' :: (toString yearContext).data)
      match strptimeDMY '-' ' ' true false n2 with
      | some d => some d
      | none => strptimeDMY ' ' ' ' true false n2

/-- The amount shape `[\$\-\+]?\s*[\d,]+\.\d{2}` of the condusef
transaction-line patterns. -/
def patCondAmount : Regex :=
  rcat [ropt1 (inSet ['$', '-', '+']), rstar isPySpace,
        rplus (fun c => isPyDigit c || c == ','), Regex.lit '.',
        rbetween isPyDigit 2 2]

/-- The condusef regular-transaction line pattern
`^(\d{1,2}[\s-]\w{3})\s+(.+?)\s+([\$\-\+]?\s*[\d,]+\.\d{2})$`
(IGNORECASE). -/
def patCondusefRegular : Regex :=
  rcat [Regex.grp 1 (rcat [rbetween isPyDigit 1 2,
                           Regex.cls (fun c => isPySpace c || c == '-'),
                           rbetween isPyWord 3 3]),
        rplus isPySpace, Regex.grp 2 (rplusL dotNoNl), rplus isPySpace,
        Regex.grp 3 patCondAmount, Regex.eol]

/-- The condusef no-interest-installment line pattern:
date, description, three amounts and `(\d+\s+DE\s+\d+)`, anchored at
both ends (IGNORECASE). -/
def patCondusefNoInterest : Regex :=
  rcat [Regex.grp 1 (rcat [rbetween isPyDigit 1 2,
                           Regex.cls (fun c => isPySpace c || c == '-'),
                           rbetween isPyWord 3 3]),
        rplus isPySpace, Regex.grp 2 (rplusL dotNoNl), rplus isPySpace,
        Regex.grp 3 patCondAmount, rplus isPySpace,
        Regex.grp 4 patCondAmount, rplus isPySpace,
        Regex.grp 5 patCondAmount, rplus isPySpace,
        Regex.grp 6 (rcat [rplus isPyDigit, rplus isPySpace, rstrCI "DE",
                           rplus isPySpace, rplus isPyDigit]),
        Regex.eol]

/-- A transaction dictionary built by
`_extract_transactions_from_table_text`; absent keys are `none`. -/
structure CondusefTx where
  operation_date : Option PyDate := none
  description : String := ""
  amount : Option ℚ := none
  original_amount : Option ℚ := none
  pending_balance : Option ℚ := none
  required_payment : Option ℚ := none
  payment_number : Option String := none
  txType : String := ""
deriving DecidableEq, Repr

/-- `_extract_transactions_from_table_text`: per stripped line, the
branch selected by `transaction_type` ("regular" or
"no_interest_installments"; any other value matches no branch) tries
its anchored pattern, and a parsed line is kept only when the dict is
non-empty and its `amount` key is present and not `None` — which the
installment branch never satisfies, since it stores
`original_amount` instead of `amount`. -/
def condusefExtractFromTableText (tableText : List Char)
    (transactionType : String) (yearContext : Nat) : List CondusefTx :=
  let lines := splitNl (pyStrip tableText)
  lines.foldl
    (fun acc line0 =>
      let line := pyStrip line0
      if line.isEmpty then acc
      else
        let parsedTx : Option CondusefTx :=
          if transactionType == "regular" then
            match reFindAt line patCondusefRegular 0 with
            | some cp =>
              match capStr line cp 1, capStr line cp 2, capStr line cp 3 with
              | some ds, some de, some am =>
                some { operation_date :=
                         condusefParseDateWithYearContext ds yearContext,
                       description := String.mk (pyStrip de),
                       amount := condusefParseAmount am,
                       txType := "regular" }
              | _, _, _ => none
            | none => none
          else if transactionType == "no_interest_installments" then
            match reFindAt line patCondusefNoInterest 0 with
            | some cp =>
              match capStr line cp 1, capStr line cp 2, capStr line cp 3,
                    capStr line cp 4, capStr line cp 5, capStr line cp 6 with
              | some ds, some de, some oa, some pb, some rp, some pn =>
                some { operation_date :=
                         condusefParseDateWithYearContext ds yearContext,
                       description := String.mk (pyStrip de),
                       original_amount := condusefParseAmount oa,
                       pending_balance := condusefParseAmount pb,
                       required_payment := condusefParseAmount rp,
                       payment_number := some (String.mk pn),
                       txType := "no_interest_installment" }
              | _, _, _, _, _, _ => none
            | none => none
          else none
        match parsedTx with
        | some t => if t.amount.isSome then acc ++ [t] else acc
        | none => acc)
    []

/-! ## table_extractor.py — the strategy cascade -/

inductive TEMethod where
  | pdfplumber
  | camelotLattice
  | camelotStream
  | tabula
  | enhancedOcr
deriving DecidableEq, Repr

/-- A pandas DataFrame as the extractor sees it: a column count and
string-valued rows. -/
structure PyDataFrame where
  ncols : Nat
  rows : List (List String)
deriving DecidableEq, Repr

/-- `df.empty`: no rows or no columns. -/
def PyDataFrame.isEmptyDf (df : PyDataFrame) : Bool :=
  df.rows.length == 0 || df.ncols == 0

structure TEResult where
  success : Bool
  method : TEMethod
  tables : List PyDataFrame
  confidence : ℚ
  error_message : Option String := none
deriving DecidableEq, Repr

/-- The extraction environment: which optional backends are importable
and what each backend call would do on the given PDF and page
(`Except.error` models the call raising). -/
structure TableEnv where
  camelotAvailable : Bool
  tabulaAvailable : Bool
  pdfplumberR : Except String TEResult
  camelotLatticeR : Except String TEResult
  camelotStreamR : Except String TEResult
  tabulaR : Except String TEResult
  ocrR : Except String TEResult

/-- The early-return test `result.success and result.confidence > 0.7`. -/
def teHigh (r : TEResult) : Bool := r.success && r.confidence > 7 / 10

/-- Accumulated results, the methods attempted in order, and whether
the function has already returned. -/
abbrev TEState := List TEResult × List TEMethod × Bool

/-- One `try: result = ...; results.append(result); if high: return`
block, skipped entirely when the backend is unavailable or the
function has already returned; a raising backend is attempted but
appends no result. -/
def teStep (avail : Bool) (m : TEMethod) (attempt : Except String TEResult)
    (st : TEState) : TEState :=
  if st.2.2 || !avail then st
  else
    match attempt with
    | Except.error _ => (st.1, st.2.1 ++ [m], false)
    | Except.ok r => (st.1 ++ [r], st.2.1 ++ [m], teHigh r)

/-- One entry of the backend cascade: availability, method, attempt. -/
abbrev TEEntry := Bool × TEMethod × Except String TEResult

def teStepE (st : TEState) (x : TEEntry) : TEState :=
  teStep x.1 x.2.1 x.2.2 st

/-- The four table backends of `extract_tables_from_pdf`, in source
order with their availability guards. -/
def tePlan (env : TableEnv) : List TEEntry :=
  [(true, TEMethod.pdfplumber, env.pdfplumberR),
   (env.camelotAvailable, TEMethod.camelotLattice, env.camelotLatticeR),
   (env.camelotAvailable, TEMethod.camelotStream, env.camelotStreamR),
   (env.tabulaAvailable, TEMethod.tabula, env.tabulaR)]

/-- Strategies 1-4 of `extract_tables_from_pdf` in source order. -/
def backendPhase (env : TableEnv) : TEState :=
  (tePlan env).foldl teStepE ([], [], false)

/-- The methods of the available entries of a plan, in order. -/
def availMethods (plan : List TEEntry) : List TEMethod :=
  (plan.filter (fun x => x.1)).map (fun x => x.2.1)

/-- `extract_tables_from_pdf`: the four table backends with their
early returns, then the enhanced-OCR strategy (which has no
high-confidence check of its own).  Returns the result list together
with the trace of methods attempted, in call order. -/
def extractTablesFromPdf (env : TableEnv) : List TEResult × List TEMethod :=
  let s := teStep true TEMethod.enhancedOcr env.ocrR (backendPhase env)
  (s.1, s.2.1)

/-- The date patterns of `_is_transaction_table`, in source order. -/
def tePatDates : List Regex :=
  [rcat [rbetween isPyDigit 1 2, Regex.cls (inSet ['-', '/']),
         rbetween isPyDigit 1 2, Regex.cls (inSet ['-', '/']),
         rbetween isPyDigit 2 4],
   rcat [rbetween isPyDigit 1 2, Regex.cls (inSet ['-', '/']),
         rbetween isPyWord 3 3, Regex.cls (inSet ['-', '/']),
         rbetween isPyDigit 2 4],
   rcat [rbetween isPyDigit 1 2, Regex.lit '-', rbetween isPyWord 3 3,
         Regex.lit '-', rbetween isPyDigit 4 4],
   rcat [rbetween isPyWord 3 3, Regex.lit '-', rbetween isPyDigit 1 2],
   rcat [rbetween isPyDigit 1 2, Regex.lit '/', rbetween isPyDigit 1 2]]

/-- The monetary patterns of `_is_transaction_table`. -/
def tePatAmounts : List Regex :=
  [rcat [Regex.lit '$', rstar isPySpace, patAmountNum],
   rcat [patAmountNum, rstar isPySpace, Regex.lit '$'],
   rcat [rplus (fun c => isPyDigit c || c == ','), Regex.lit '.',
         rbetween isPyDigit 2 2]]

/-- The transaction keywords of `_is_transaction_table`. -/
def teKeywords : List String :=
  ["PAGO", "COMPRA", "RETIRO", "DEPOSITO", "TRANSFERENCIA", "RESTAURANTE",
   "TIENDA", "FARMACIA", "GASOLINA", "ATM", "VISA", "MASTERCARD",
   "DEBITO", "CREDITO"]

/-- `df.iloc[:, i].astype(str)`. -/
def dfCol (df : PyDataFrame) (i : Nat) : List String :=
  df.rows.map (fun r => ((r.drop i).head?).getD "")

/-- `_is_transaction_table`: empty tables are rejected; any table with
at least 10 rows and 3 columns is accepted outright; otherwise date
density over the first five columns, monetary matches, keyword hits
and a large-table shape decide. -/
def isTransactionTable (df : PyDataFrame) : Bool :=
  if df.isEmptyDf then false
  else if df.rows.length ≥ 10 && df.ncols ≥ 3 then true
  else
    let colIdxs := List.range (min df.ncols 5)
    let totalDateMatches :=
      (colIdxs.map (fun i =>
        let col := dfCol df i
        (tePatDates.map (fun p =>
          (col.filter (fun s => (reSearch s.data p).isSome)).length)).sum)).sum
    let totalCells := (colIdxs.map (fun i => (dfCol df i).length)).sum
    let amountMatches :=
      (colIdxs.map (fun i =>
        let col := dfCol df i
        (tePatAmounts.map (fun p =>
          (col.filter (fun s => (reSearch s.data p).isSome)).length)).sum)).sum
    let allText := pyUpper (String.intercalate " " df.rows.flatten).data
    let keywordMatches :=
      (teKeywords.filter (fun k => containsSub allText k.data)).length
    let dateDensity : ℚ := (totalDateMatches : ℚ) / ((max totalCells 1 : Nat) : ℚ)
    (dateDensity > 1 / 10) || amountMatches > 0 || keywordMatches > 0 ||
      (df.rows.length > 20 && df.ncols ≥ 4)

/-! ## Specification-side helper definitions used by the theorems -/

/-- The sub-confidences `validate_extraction` collects, in order:
payment, balance, transactions. -/
def subScores (d : PyExtractedData) : List ℚ :=
  (match d.payment_info with | some p => [p.confidence] | none => []) ++
  (match d.balance_info with | some b => [b.confidence] | none => []) ++
  (match d.transactions_confidence with | some c => [c] | none => [])

/-- The simple mean of the available sub-confidences (0 when none). -/
def meanSubScores (d : PyExtractedData) : ℚ :=
  if (subScores d).isEmpty then 0
  else (subScores d).sum / ((subScores d).length : ℚ)

/-- All four required keys are present. -/
def hasAllRequired (d : PyExtractedData) : Bool :=
  d.customer_info.isSome && d.payment_info.isSome &&
  d.balance_info.isSome && d.transactions.isSome

/-- The six found-flags of `extract_payment_info`, in field order:
period start, period end, cut date, due date (found on a pattern
match alone), pay-to-avoid-interest, minimum payment. -/
def paymentFieldFlags (text : List Char) : List Bool :=
  [((reSearch text patPeriodStart).bind
      (fun cp => (capStr text cp 1).bind parseMexicanDate)).isSome,
   ((reSearch text patPeriodEnd).bind
      (fun cp => (capStr text cp 1).bind parseMexicanDate)).isSome,
   ((reSearch text patCutDate).bind
      (fun cp => (capStr text cp 1).bind parseMexicanDate)).isSome,
   (reSearch text patDueDate).isSome,
   ((reSearch text patPayNoInterest).bind
      (fun cp => (capStr text cp 1).bind parseMexicanAmount)).isSome,
   ((reSearch text patMinimumPayment).bind
      (fun cp => (capStr text cp 1).bind parseMexicanAmount)).isSome]

/-- How many of the six payment fields were found. -/
def paymentFoundCount (text : List Char) : Nat :=
  (paymentFieldFlags text).count true

/-- The malformed-response condition of C4: the stripped model
response contains no brace-delimited block, or that block does not
parse to a JSON object. -/
def respMalformed (jl : JLoads) (resp : String) : Prop :=
  match braceBlock (pyStrip resp.data) with
  | none => True
  | some js =>
    match jl (String.mk js) with
    | Except.ok (PyJson.obj _) => False
    | _ => True

/-- Invariant of the backend cascade state: either the function has
not returned and every gathered result failed the high-confidence
test, or it has returned and the results are all-low followed by one
final high-confidence success. -/
def teInv (st : TEState) : Prop :=
  (st.2.2 = false ∧ ∀ r ∈ st.1, teHigh r = false) ∨
  (st.2.2 = true ∧ ∃ pre last, st.1 = pre ++ [last] ∧
    (∀ x ∈ pre, teHigh x = false) ∧ teHigh last = true)

/-- C2 counterexample data: all four required sections present, every
sub-confidence equal to 1, and an empty transaction list. -/
def c2Data : PyExtractedData :=
  { customer_info := some {}, payment_info := some { confidence := 1 },
    balance_info := some { confidence := 1 }, transactions := some [],
    transactions_confidence := some 1 }

/-- A `json.loads` that always raises, for concrete instantiations. -/
def c4jl : JLoads := fun _ => Except.error "Expecting value"

/-- A model that always answers plain text with no JSON object. -/
def c4env : LLMEnv :=
  { available := true, invoke := fun _ => Except.ok "no json here" }

/-- An extraction environment where every backend raises and only the
OCR attempt returns (an unsuccessful result). -/
def c6demoEnv : TableEnv :=
  { camelotAvailable := true, tabulaAvailable := false,
    pdfplumberR := Except.error "boom",
    camelotLatticeR := Except.error "boom",
    camelotStreamR := Except.error "boom",
    tabulaR := Except.error "boom",
    ocrR := Except.ok { success := false, method := TEMethod.enhancedOcr,
                        tables := [], confidence := 0 } }

/-- An unavailable language model, for concrete parse runs. -/
def c7jl : JLoads := fun _ => Except.error "no model"

def c7env : LLMEnv :=
  { available := false, invoke := fun _ => Except.error "no model" }

/-- A minimal statement text that passes the format gate (it carries
the transaction-section header) and yields one parseable transaction. -/
def c7text : String :=
  "DESGLOSE DE MOVIMIENTOS\n01-ENE-2023 02-ENE-2023 OXXO MONTERREY $55.80\n"

/-- The transaction `parse_statement` extracts from `c7text`. -/
def c7tx : MxTransaction :=
  { operation_date := ⟨2023, 1, 1⟩, charge_date := ⟨2023, 1, 2⟩,
    description := "OXXO MONTERREY", amount := 279 / 5,
    transaction_type := "CREDIT", category := some "alimentacion" }

/-- The extracted data `parse_statement` assembles for `c7text`. -/
def c7data : PyExtractedData :=
  { customer_info := some { customer_name := some "DESGLOSE DE MOVIMIENTOS" },
    payment_info := some ({} : PaymentInfo),
    balance_info := some ({} : BalanceInfo),
    transactions := some [c7tx], transactions_confidence := some 1 }

/-! ## The verified properties -/

/-- C10. For every non-empty table with at least 10 rows and at least
3 columns, `_is_transaction_table` returns `True` unconditionally —
the quantification over arbitrary cell contents shows that no
date-pattern density, currency-pattern density or keyword hit is
consulted for such a table. -/
theorem isTransactionTable_large_table_true (df : PyDataFrame)
    (h1 : 10 ≤ df.rows.length) (h2 : 3 ≤ df.ncols) :
    isTransactionTable df = true := by
  unfold isTransactionTable PyDataFrame.isEmptyDf
  have e1 : (df.rows.length == 0) = false := by
    simp only [beq_eq_false_iff_ne, ne_eq]
    omega
  have e2 : (df.ncols == 0) = false := by
    simp only [beq_eq_false_iff_ne, ne_eq]
    omega
  simp [e1, e2, h1, h2]

/-- C10 witness: a concrete 10-row, 3-column table. -/
theorem isTransactionTable_large_table_true_witness :
    isTransactionTable { ncols := 3, rows := List.replicate 10 ["a", "b", "c"] } = true :=
  isTransactionTable_large_table_true
    { ncols := 3, rows := List.replicate 10 ["a", "b", "c"] }
    (by decide) (by decide)

/-- C9. `validate_extraction` only reads the extracted data: the body
writes exclusively into the fresh validation-result dictionary, so the
customer info, payment info, balance info and transaction list are
exactly what was passed in, and the verdict is a separate value. -/
theorem validateExtraction_frame (d : PyExtractedData) :
    (validateExtractionSt d).1 = d ∧
    (validateExtractionSt d).2 = validateExtraction d :=
  ⟨rfl, rfl⟩

/-- C8 helper-free statement. `parse_statement` never lets an
exception escape (its raw, exception-explicit form always returns
`Except.ok`), and an unrecognized format yields exactly the failure
dictionary with `success=False` and confidence 0. -/
theorem parseStatement_total_and_fails_closed (jl : JLoads) (env : LLMEnv)
    (text : String) :
    parseStatementRaw jl env text = Except.ok (parseStatement jl env text)
  ∧ (validateMexicanFormat text.data = false →
      parseStatement jl env text =
        { success := false, confidence := 0,
          error := some "Statement format not recognized as Mexican CONDUSEF standard" }) := by
  constructor
  · rcases hb : parseStatementBody jl env text with e | r <;>
      by_cases hv : validateMexicanFormat text.data <;>
        simp [parseStatementRaw, parseStatement, hv, hb]
  · intro hv
    simp [parseStatement, hv]

/-- C8 witness: a text that is not recognized as CONDUSEF format. -/
theorem parseStatement_total_and_fails_closed_witness :
    validateMexicanFormat "hello".data = false ∧
    parseStatement (fun _ => Except.error "e")
      { available := false, invoke := fun _ => Except.error "e" } "hello" =
      { success := false, confidence := 0,
        error := some "Statement format not recognized as Mexican CONDUSEF standard" } :=
  ⟨by decide,
   (parseStatement_total_and_fails_closed (fun _ => Except.error "e")
      { available := false, invoke := fun _ => Except.error "e" } "hello").2
     (by decide)⟩

theorem subScores_eq_vScores (d : PyExtractedData) : subScores d = vScores d := rfl

theorem vBase_confidence (d : PyExtractedData) : (vBase d).confidence = 0 := by
  unfold vBase
  split <;> rfl

theorem vBase_warnings (d : PyExtractedData) : (vBase d).warnings = [] := by
  unfold vBase
  split <;> rfl

theorem vBase_isValid (d : PyExtractedData) :
    (vBase d).is_valid = (vMissing d).isEmpty := by
  unfold vBase
  by_cases h : (vMissing d).isEmpty <;> simp [h]

theorem vWithConf_confidence (d : PyExtractedData) :
    (vWithConf d).confidence = meanSubScores d := by
  unfold vWithConf meanSubScores
  rw [subScores_eq_vScores]
  by_cases h : (vScores d).isEmpty <;> simp [h, vBase_confidence]

theorem vWithConf_warnings (d : PyExtractedData) :
    (vWithConf d).warnings = [] := by
  unfold vWithConf
  split
  · simp [vBase_warnings]
  · exact vBase_warnings d

theorem vWithConf_isValid (d : PyExtractedData) :
    (vWithConf d).is_valid = (vMissing d).isEmpty := by
  unfold vWithConf
  split
  · simp [vBase_isValid]
  · exact vBase_isValid d

theorem vWithWarn_confidence (d : PyExtractedData) :
    (vWithWarn d).confidence = meanSubScores d := by
  unfold vWithWarn
  rcases htx : d.transactions with _ | ts <;>
    simp only [htx]
  · exact vWithConf_confidence d
  · split_ifs <;> simp [vWithConf_confidence]

theorem vWithWarn_isValid (d : PyExtractedData) :
    (vWithWarn d).is_valid = (vMissing d).isEmpty := by
  unfold vWithWarn
  rcases htx : d.transactions with _ | ts <;>
    simp only [htx]
  · exact vWithConf_isValid d
  · split_ifs <;> simp [vWithConf_isValid]

theorem vMissing_isEmpty_iff (d : PyExtractedData) :
    (vMissing d).isEmpty = hasAllRequired d := by
  rcases d with ⟨ci, payi, bali, txs, tconf⟩
  cases ci <;> cases payi <;> cases bali <;> cases txs <;>
    simp [vMissing, hasAllRequired]

theorem validateExtraction_confidence (d : PyExtractedData) :
    (validateExtraction d).confidence = meanSubScores d := by
  unfold validateExtraction
  split <;> simp [vWithWarn_confidence]

theorem validateExtraction_warnings (d : PyExtractedData) :
    (validateExtraction d).warnings = (vWithWarn d).warnings := by
  unfold validateExtraction
  split <;> rfl

/-- C2 as amended: the overall confidence is the simple mean of the
available payment, balance and transaction sub-confidences, and
`is_valid=False` exactly when a required field is missing or that mean
is below 0.6; a zero or above-1000 transaction count only appends a
warning, never by itself invalidates. -/
theorem validateExtraction_amended (d : PyExtractedData) :
    (validateExtraction d).confidence = meanSubScores d
  ∧ ((validateExtraction d).is_valid = true ↔
      (hasAllRequired d = true ∧ 3 / 5 ≤ meanSubScores d))
  ∧ (∀ ts, d.transactions = some ts → ts.length = 0 →
      (validateExtraction d).warnings = ["No transactions found"])
  ∧ (∀ ts, d.transactions = some ts → 1000 < ts.length →
      (validateExtraction d).warnings = ["Unusually high transaction count"]) := by
  refine ⟨validateExtraction_confidence d, ?_, ?_, ?_⟩
  · unfold validateExtraction
    split
    · rename_i hlt
      rw [vWithWarn_confidence] at hlt
      simp only [← vMissing_isEmpty_iff]
      constructor
      · intro h
        exact absurd h (by simp)
      · rintro ⟨-, hge⟩
        exact absurd hlt (not_lt.mpr hge)
    · rename_i hlt
      rw [vWithWarn_confidence] at hlt
      rw [vWithWarn_isValid, vMissing_isEmpty_iff]
      constructor
      · intro h
        exact ⟨h, not_lt.mp hlt⟩
      · exact fun h => h.1
  · intro ts htx hlen
    rw [validateExtraction_warnings]
    unfold vWithWarn
    rw [htx]
    dsimp only
    split_ifs with hA hB
    · simp [vWithConf_warnings]
    · omega
    · simp only [beq_iff_eq] at hA
      omega
  · intro ts htx hlen
    rw [validateExtraction_warnings]
    unfold vWithWarn
    rw [htx]
    dsimp only
    split_ifs with hA <;>
      first
        | (simp only [beq_iff_eq] at hA
           omega)
        | simp [vWithConf_warnings]

/-- C3. `extract_payment_info` reports confidence
`found-field-count / 6`: the count is at most 6, the confidence lies
in [0, 1], all six fields found gives 1, none found gives 0. -/
theorem extractPaymentInfo_confidence_found_over_six (t : List Char) :
    (extractPaymentInfo t).confidence = (paymentFoundCount t : ℚ) / 6
  ∧ paymentFoundCount t ≤ 6
  ∧ 0 ≤ (extractPaymentInfo t).confidence
  ∧ (extractPaymentInfo t).confidence ≤ 1
  ∧ (paymentFoundCount t = 6 → (extractPaymentInfo t).confidence = 1)
  ∧ (paymentFoundCount t = 0 → (extractPaymentInfo t).confidence = 0) := by
  have key : ∀ a b c d e f : Bool,
      List.count true [a, b, c, d, e, f] =
        b2n a + b2n b + b2n c + b2n d + b2n e + b2n f := by decide
  have hconf : (extractPaymentInfo t).confidence = (paymentFoundCount t : ℚ) / 6 := by
    simp only [extractPaymentInfo, paymentFoundCount, paymentFieldFlags, key]
  have hle : paymentFoundCount t ≤ 6 := by
    have := List.count_le_length (l := paymentFieldFlags t) (a := true)
    simpa [paymentFieldFlags] using this
  refine ⟨hconf, hle, ?_, ?_, ?_, ?_⟩
  · rw [hconf]
    positivity
  · rw [hconf]
    rw [div_le_one (by norm_num)]
    exact_mod_cast hle
  · intro h
    rw [hconf, h]
    norm_num
  · intro h
    rw [hconf, h]
    norm_num

set_option maxRecDepth 40000 in
/-- C3 witness: a statement text on which all six payment fields are
found (the due-date field counts as found even though its captured
text does not parse as a date), so the confidence is exactly 1. -/
theorem extractPaymentInfo_confidence_witness :
    paymentFoundCount ("Periodo: Del 01-ENE-2023 al 31-ENE-2023\nFecha de corte: 31-ENE-2023\nFecha límite de pago: 20-FEB-2023\nPago para no generar intereses: $5,000.00\nPago mínimo: $250.00\n").data = 6 ∧
    (extractPaymentInfo ("Periodo: Del 01-ENE-2023 al 31-ENE-2023\nFecha de corte: 31-ENE-2023\nFecha límite de pago: 20-FEB-2023\nPago para no generar intereses: $5,000.00\nPago mínimo: $250.00\n").data).confidence = 1 :=
  ⟨by decide,
   (extractPaymentInfo_confidence_found_over_six
      ("Periodo: Del 01-ENE-2023 al 31-ENE-2023\nFecha de corte: 31-ENE-2023\nFecha límite de pago: 20-FEB-2023\nPago para no generar intereses: $5,000.00\nPago mínimo: $250.00\n").data).2.2.2.2.1
     (by decide)⟩

theorem leadsList_subset (n : List Char) :
    ∀ (h : List Char), leadsList n h = true → ∀ c ∈ n, c ∈ h := by
  induction n with
  | nil =>
    intro h _ c hc
    exact absurd hc (List.not_mem_nil c)
  | cons a as ih =>
    intro h hl c hc
    cases h with
    | nil => simp [leadsList] at hl
    | cons b bs =>
      simp only [leadsList, Bool.and_eq_true, beq_iff_eq] at hl
      rcases List.mem_cons.mp hc with rfl | hc2
      · rw [hl.1]
        exact List.mem_cons_self b bs
      · exact List.mem_cons_of_mem b (ih bs hl.2 c hc2)

theorem containsSub_mem (hay needle : List Char)
    (h : containsSub hay needle = true) : ∀ c ∈ needle, c ∈ hay := by
  unfold containsSub at h
  rw [List.any_eq_true] at h
  obtain ⟨i, _, hi⟩ := h
  intro c hc
  exact List.mem_of_mem_drop (leadsList_subset needle _ hi c hc)

theorem pyStrip_eq_nil (s : List Char) (h : pyStrip s = []) :
    ∀ c ∈ s, isPySpace c = true := by
  unfold pyStrip at h
  rw [List.reverse_eq_nil_iff, List.dropWhile_eq_nil_iff] at h
  intro c hc
  by_contra hcs
  have hsplit := List.takeWhile_append_dropWhile (p := isPySpace) (l := s)
  rw [← hsplit] at hc
  rcases List.mem_append.mp hc with h1 | h2
  · exact hcs (List.mem_takeWhile_imp h1)
  · exact hcs (h c (List.mem_reverse.mpr h2))

theorem pyUpperChar_of_space (c : Char) (h : isPySpace c = true) :
    pyUpperChar c = c := by
  simp only [isPySpace, Bool.or_eq_true, beq_iff_eq] at h
  rcases h with ((((rfl | rfl) | rfl) | rfl) | rfl) | rfl <;> decide

theorem exactMatchRules_have_nonspace :
    ∀ p ∈ exactMatchRules, ∃ c ∈ p.1.data, isPySpace c = false := by
  decide

/-- C5. When the upper-cased description contains an exact-match
merchant and also matches some pattern-match regex, the categorizer
returns the exact tier's answer, so tier 1 wins over tiers 2 and 3. -/
theorem categorize_exact_tier_precedence (d : String)
    (h1 : ∃ p ∈ exactMatchRules, containsSub (pyUpper d.data) p.1.data = true)
    (_h2 : ∃ q ∈ patternMatchRules, (reSearch (pyUpper d.data) q.1).isSome = true) :
    ∃ c, tierExact (pyUpper d.data) = some c ∧
         categorizeMexicanTransaction d = some c := by
  obtain ⟨p, hp, hsub⟩ := h1
  have hfind : (exactMatchRules.find?
      (fun r => containsSub (pyUpper d.data) r.1.data)).isSome = true := by
    rw [List.find?_isSome]
    exact ⟨p, hp, hsub⟩
  obtain ⟨r0, hr0⟩ := Option.isSome_iff_exists.mp hfind
  have hstrip : (pyStrip d.data).isEmpty = false := by
    obtain ⟨c0, hc0, hc0s⟩ := exactMatchRules_have_nonspace p hp
    have hc0mem : c0 ∈ pyUpper d.data := containsSub_mem _ _ hsub c0 hc0
    obtain ⟨c1, hc1, hup⟩ := List.mem_map.mp hc0mem
    have hc1s : isPySpace c1 = false := by
      by_contra hcs
      rw [Bool.not_eq_false] at hcs
      rw [pyUpperChar_of_space c1 hcs] at hup
      rw [← hup, hcs] at hc0s
      simp at hc0s
    have hne : pyStrip d.data ≠ [] := by
      intro hnil
      have hsp := pyStrip_eq_nil _ hnil c1 hc1
      rw [hc1s] at hsp
      simp at hsp
    rcases hcase : pyStrip d.data with _ | ⟨x, xs⟩
    · exact absurd hcase hne
    · rfl
  refine ⟨r0.2, ?_, ?_⟩
  · simp [tierExact, hr0]
  · unfold categorizeMexicanTransaction
    rw [hstrip]
    simp only [Bool.false_eq_true, if_false]
    have : tierExact (pyUpper d.data) = some r0.2 := by
      simp [tierExact, hr0]
    rw [this]

theorem ruleTag_description (t : MxTransaction) :
    (ruleTag t).description = t.description := by
  unfold ruleTag
  rcases h : categorizeMexicanTransaction t.description with _ | c <;> rfl

theorem ruleTag_of_none (t : MxTransaction)
    (h : categorizeMexicanTransaction t.description = none) :
    (ruleTag t).category = some "otros" := by
  unfold ruleTag
  rw [h]

theorem exactMatchRules_snd_ne_empty : ∀ p ∈ exactMatchRules, p.2 ≠ "" := by
  decide

set_option maxRecDepth 40000 in
theorem patternMatchRules_snd_ne_empty : ∀ p ∈ patternMatchRules, p.2 ≠ "" := by
  decide

theorem containsMatchRules_snd_ne_empty : ∀ p ∈ containsMatchRules, p.2 ≠ "" := by
  decide

set_option maxRecDepth 40000 in
theorem validCategories_all_ne_empty : ∀ c ∈ validCategories, c ≠ "" := by
  decide

theorem tierExact_ne_empty {du : List Char} {c : String}
    (h : tierExact du = some c) : c ≠ "" := by
  unfold tierExact at h
  obtain ⟨r, hr, hmap⟩ := Option.map_eq_some'.mp h
  rw [← hmap]
  exact exactMatchRules_snd_ne_empty r (List.mem_of_find?_eq_some hr)

theorem tierPattern_ne_empty {du : List Char} {c : String}
    (h : tierPattern du = some c) : c ≠ "" := by
  unfold tierPattern at h
  obtain ⟨r, hr, hmap⟩ := Option.map_eq_some'.mp h
  rw [← hmap]
  exact patternMatchRules_snd_ne_empty r (List.mem_of_find?_eq_some hr)

theorem tierContains_ne_empty {du : List Char} {c : String}
    (h : tierContains du = some c) : c ≠ "" := by
  unfold tierContains at h
  obtain ⟨r, hr, hmap⟩ := Option.map_eq_some'.mp h
  rw [← hmap]
  exact containsMatchRules_snd_ne_empty r (List.mem_of_find?_eq_some hr)

theorem categorize_ne_empty {d : String} {c : String}
    (h : categorizeMexicanTransaction d = some c) : c ≠ "" := by
  unfold categorizeMexicanTransaction at h
  split at h
  · exact absurd h (by simp)
  · rcases h1 : tierExact (pyUpper d.data) with _ | c1
    · rw [h1] at h
      rcases h2 : tierPattern (pyUpper d.data) with _ | c2
      · rw [h2] at h
        exact tierContains_ne_empty h
      · rw [h2] at h
        injection h with he
        rw [← he]
        exact tierPattern_ne_empty h2
    · rw [h1] at h
      injection h with he
      rw [← he]
      exact tierExact_ne_empty h1

theorem mem_ruleTagged_good {ts : List MxTransaction} {t : MxTransaction}
    (ht : t ∈ ts.map ruleTag) : ∃ c, t.category = some c ∧ c ≠ "" := by
  obtain ⟨t0, _, rfl⟩ := List.mem_map.mp ht
  unfold ruleTag
  rcases hc : categorizeMexicanTransaction t0.description with _ | c
  · exact ⟨"otros", rfl, by decide⟩
  · exact ⟨c, rfl, categorize_ne_empty hc⟩

theorem assocSet_mem {m : List (String × String)} {k v : String}
    {p : String × String} (hp : p ∈ assocSet m k v) : p ∈ m ∨ p.2 = v := by
  unfold assocSet at hp
  split at hp
  · obtain ⟨q, hq, hqe⟩ := List.mem_map.mp hp
    by_cases hk : (q.1 == k) = true
    · rw [if_pos hk] at hqe
      right
      rw [← hqe]
    · rw [if_neg hk] at hqe
      left
      rw [← hqe]
      exact hq
  · rcases List.mem_append.mp hp with h | h
    · exact Or.inl h
    · right
      simp only [List.mem_singleton] at h
      rw [h]

theorem batchStep_good {acc : List (String × String)}
    (hacc : ∀ p ∈ acc, p.2 = "otros" ∨ p.2 ∈ validCategories)
    (kv : String × PyJson) :
    ∀ p ∈ batchStep acc kv, p.2 = "otros" ∨ p.2 ∈ validCategories := by
  intro p hp
  unfold batchStep at hp
  rcases kv with ⟨k, v⟩
  cases v with
  | jstr cat =>
    simp only at hp
    rcases assocSet_mem hp with h | h
    · exact hacc p h
    · rw [h]
      split
      · rename_i hmem
        right
        simpa using hmem
      · left
        rfl
  | obj o => exact hacc p hp
  | arr a => exact hacc p hp
  | jnum q => exact hacc p hp
  | jbool b => exact hacc p hp
  | jnull => exact hacc p hp

theorem foldl_batchStep_good (its : List (String × PyJson)) :
    ∀ (acc : List (String × String)),
      (∀ p ∈ acc, p.2 = "otros" ∨ p.2 ∈ validCategories) →
      ∀ p ∈ its.foldl batchStep acc, p.2 = "otros" ∨ p.2 ∈ validCategories := by
  induction its with
  | nil => intro acc hacc; exact hacc
  | cons kv rest ih =>
    intro acc hacc
    exact ih (batchStep acc kv) (batchStep_good hacc kv)

/-- The batch categorizer never lets an exception escape, and every
category it returns is either "otros" or a member of the fixed
category set. -/
theorem batchRaw_ok (jl : JLoads) (env : LLMEnv) (descs : List String) :
    ∃ m, batchCategorizeRaw jl env descs = Except.ok m ∧
      ∀ p ∈ m, p.2 = "otros" ∨ p.2 ∈ validCategories := by
  unfold batchCategorizeRaw
  by_cases ha : (!env.available || descs.isEmpty) = true
  · rw [if_pos ha]
    exact ⟨[], rfl, by simp⟩
  · rw [if_neg ha]
    rcases hr : env.invoke descs with e | r
    · simp only [hr]
      exact ⟨[], rfl, by simp⟩
    · simp only [hr]
      rcases hbb : braceBlock (pyStrip r.data) with _ | js
      · simp only [hbb]
        exact ⟨[], rfl, by simp⟩
      · simp only [hbb]
        rcases hjl : jl (String.mk js) with e2 | v
        · simp only [hjl]
          exact ⟨[], rfl, by simp⟩
        · cases v with
          | obj items =>
            exact ⟨items.foldl batchStep [], rfl,
                   foldl_batchStep_good items [] (by simp)⟩
          | arr a => exact ⟨[], rfl, by simp⟩
          | jstr s => exact ⟨[], rfl, by simp⟩
          | jnum q => exact ⟨[], rfl, by simp⟩
          | jbool b => exact ⟨[], rfl, by simp⟩
          | jnull => exact ⟨[], rfl, by simp⟩

theorem body_ok_shape (jl : JLoads) (env : LLMEnv) (text : String)
    (r : ParseResult) (hr : parseStatementBody jl env text = Except.ok r) :
    ∃ m, (if (uncatOf (extractTransactions text.data).1).isEmpty then
            Except.ok []
          else batchCategorizeRaw jl env
            (uncatOf (extractTransactions text.data).1)) = Except.ok m ∧
      (∀ p ∈ m, p.2 = "otros" ∨ p.2 ∈ validCategories) ∧
      ∀ dd, r.data = some dd →
        dd.transactions =
          some (applyOverrides m
            ((extractTransactions text.data).1.map ruleTag)) := by
  unfold parseStatementBody at hr
  rcases hS : (if (uncatOf (extractTransactions text.data).1).isEmpty then
      Except.ok []
    else batchCategorizeRaw jl env
      (uncatOf (extractTransactions text.data).1)) with e | m
  · rw [hS] at hr
    exact Except.noConfusion hr
  · rw [hS] at hr
    have hmgood : ∀ p ∈ m, p.2 = "otros" ∨ p.2 ∈ validCategories := by
      revert hS
      split
      · intro hS
        injection hS with h
        rw [← h]
        simp
      · intro hS
        obtain ⟨m2, hm2, hg⟩ := batchRaw_ok jl env
          (uncatOf (extractTransactions text.data).1)
        rw [hS] at hm2
        injection hm2 with h
        rw [h]
        exact hg
    injection hr with h
    subst h
    refine ⟨m, rfl, hmgood, ?_⟩
    intro dd hdd
    injection hdd with h2
    rw [← h2]
    rfl

/-- C4. When the model response never contains a valid JSON object,
the whole batch is discarded: `_categorize_batch_with_llm` returns
the empty mapping without raising, and in `parse_statement` every
transaction the rules could not categorize keeps the default "otros"
— no description is partially trusted. -/
theorem batch_malformed_discards_all (jl : JLoads) (env : LLMEnv)
    (hbad : ∀ ds r, env.invoke ds = Except.ok r → respMalformed jl r) :
    (∀ descs, batchCategorizeRaw jl env descs = Except.ok [])
  ∧ (∀ (text : String) (dd : PyExtractedData) (ts : List MxTransaction),
      (parseStatement jl env text).data = some dd →
      dd.transactions = some ts →
      ∀ t ∈ ts, categorizeMexicanTransaction t.description = none →
        t.category = some "otros") := by
  have part1 : ∀ descs, batchCategorizeRaw jl env descs = Except.ok [] := by
    intro descs
    unfold batchCategorizeRaw
    by_cases ha : (!env.available || descs.isEmpty) = true
    · rw [if_pos ha]
    · rw [if_neg ha]
      rcases hr : env.invoke descs with e | r
      · simp only [hr]
      · simp only [hr]
        have hm := hbad descs r hr
        unfold respMalformed at hm
        rcases hbb : braceBlock (pyStrip r.data) with _ | js
        · simp only [hbb]
        · rw [hbb] at hm
          simp only [hbb]
          have hm2 : (match jl (String.mk js) with
            | Except.ok (PyJson.obj _) => False
            | _ => True) := hm
          rcases hjl : jl (String.mk js) with e2 | v
          · simp only [hjl]
          · rw [hjl] at hm2
            cases v with
            | obj items => exact hm2.elim
            | arr a => rfl
            | jstr s2 => rfl
            | jnum q => rfl
            | jbool b => rfl
            | jnull => rfl
  refine ⟨part1, ?_⟩
  intro text dd ts hdd hts t ht hcat
  unfold parseStatement at hdd
  split at hdd
  · exact Option.noConfusion hdd
  · rcases hb : parseStatementBody jl env text with e | r
    · rw [hb] at hdd
      exact Option.noConfusion hdd
    · rw [hb] at hdd
      obtain ⟨m, hS, _, hshape⟩ := body_ok_shape jl env text r hb
      have hm0 : m = [] := by
        rw [part1 _] at hS
        revert hS
        split <;>
          · intro hS
            injection hS with h
            exact h.symm
      have htx := hshape dd hdd
      rw [hts] at htx
      injection htx with h
      rw [hm0] at h
      have happ : applyOverrides []
          ((extractTransactions text.data).1.map ruleTag) =
          (extractTransactions text.data).1.map ruleTag := by
        unfold applyOverrides
        simp
      rw [happ] at h
      rw [h] at ht
      obtain ⟨t0, _, rfl⟩ := List.mem_map.mp ht
      rw [ruleTag_description] at hcat
      exact ruleTag_of_none t0 hcat

theorem assocGet_values {m : List (String × String)} {k c : String}
    (h : assocGet m k = some c) : ∃ p ∈ m, p.2 = c := by
  unfold assocGet at h
  obtain ⟨p, hp, hmap⟩ := Option.map_eq_some'.mp h
  exact ⟨p, List.mem_of_find?_eq_some hp, hmap⟩

theorem mem_applyOverrides {m : List (String × String)}
    {ts : List MxTransaction} {t : MxTransaction}
    (ht : t ∈ applyOverrides m ts) :
    t ∈ ts ∨ ∃ t1 ∈ ts, ∃ c, assocGet m t1.description = some c ∧
      t = { t1 with category := some c } := by
  unfold applyOverrides at ht
  split at ht
  · exact Or.inl ht
  · obtain ⟨t1, ht1, hte⟩ := List.mem_map.mp ht
    rcases hg : assocGet m t1.description with _ | c
    · rw [hg] at hte
      exact Or.inl (hte ▸ ht1)
    · rw [hg] at hte
      exact Or.inr ⟨t1, ht1, c, hg, hte.symm⟩

/-- C7. Every transaction in the data of a `parse_statement` result
has a non-null, non-empty category: rule matches give their rule
category, everything else gets "otros", and a language-model override
can only install a validated known category or "otros". -/
theorem parse_statement_category_floor (jl : JLoads) (env : LLMEnv)
    (text : String) (dd : PyExtractedData) (ts : List MxTransaction)
    (hdd : (parseStatement jl env text).data = some dd)
    (hts : dd.transactions = some ts) :
    ∀ t ∈ ts, ∃ c, t.category = some c ∧ c ≠ "" := by
  unfold parseStatement at hdd
  split at hdd
  · exact Option.noConfusion hdd
  · rcases hb : parseStatementBody jl env text with e | r
    · rw [hb] at hdd
      exact Option.noConfusion hdd
    · rw [hb] at hdd
      obtain ⟨m, _, hmgood, hshape⟩ := body_ok_shape jl env text r hb
      have htx := hshape dd hdd
      rw [hts] at htx
      injection htx with h
      intro t ht
      rw [h] at ht
      rcases mem_applyOverrides ht with h1 | ⟨t1, ht1, c, hgc, rfl⟩
      · exact mem_ruleTagged_good h1
      · refine ⟨c, rfl, ?_⟩
        obtain ⟨p, hp, hpc⟩ := assocGet_values hgc
        rcases hmgood p hp with ho | hvc
        · rw [← hpc, ho]
          decide
        · rw [← hpc]
          exact validCategories_all_ne_empty p.2 hvc

theorem teStepE_of_done {st : TEState} (h : st.2.2 = true) (x : TEEntry) :
    teStepE st x = st := by
  unfold teStepE teStep
  rw [h]
  simp

theorem foldl_teStepE_done {st : TEState} (h : st.2.2 = true) :
    ∀ plan : List TEEntry, plan.foldl teStepE st = st := by
  intro plan
  induction plan with
  | nil => rfl
  | cons x rest ih =>
    rw [List.foldl_cons, teStepE_of_done h]
    exact ih

theorem teStepE_inv {st : TEState} (hinv : teInv st) (x : TEEntry) :
    teInv (teStepE st x) := by
  unfold teStepE teStep
  rcases hinv with ⟨hd, hlow⟩ | ⟨hd, pre, last, hsl, hplow, hlast⟩
  · rw [hd]
    by_cases hav : x.1 = true
    · simp only [hav, Bool.not_true, Bool.or_false, if_false,
        Bool.false_eq_true]
      rcases hx : x.2.2 with e | r
      · exact Or.inl ⟨rfl, hlow⟩
      · by_cases hH : teHigh r = true
        · exact Or.inr ⟨hH, st.1, r, rfl, hlow, hH⟩
        · rw [Bool.not_eq_true] at hH
          refine Or.inl ⟨hH, ?_⟩
          intro y hy
          rcases List.mem_append.mp hy with h1 | h1
          · exact hlow y h1
          · simp only [List.mem_singleton] at h1
            rw [h1]
            exact hH
    · rw [Bool.not_eq_true] at hav
      simp only [hav, Bool.not_false, Bool.or_true, if_true]
      exact Or.inl ⟨hd, hlow⟩
  · rw [hd]
    simp only [Bool.true_or, if_true]
    exact Or.inr ⟨hd, pre, last, hsl, hplow, hlast⟩

theorem foldl_teStepE_inv (plan : List TEEntry) :
    ∀ st : TEState, teInv st → teInv (plan.foldl teStepE st) := by
  induction plan with
  | nil => intro st h; exact h
  | cons x rest ih =>
    intro st h
    exact ih _ (teStepE_inv h x)

theorem foldl_trace (plan : List TEEntry) :
    ∀ st : TEState, st.2.2 = false →
      (plan.foldl teStepE st).2.2 = false →
      (plan.foldl teStepE st).2.1 = st.2.1 ++ availMethods plan := by
  induction plan with
  | nil =>
    intro st h1 _
    simp [availMethods]
  | cons x rest ih =>
    intro st h1 h2
    rw [List.foldl_cons] at h2 ⊢
    by_cases hav : x.1 = true
    · rcases hx : x.2.2 with e | r
      · have hst : teStepE st x = (st.1, st.2.1 ++ [x.2.1], false) := by
          unfold teStepE teStep
          rw [h1, hx]
          simp [hav]
        rw [hst] at h2 ⊢
        rw [ih _ rfl h2]
        simp [availMethods, hav, List.filter_cons]
      · by_cases hH : teHigh r = true
        · have hst : teStepE st x = (st.1 ++ [r], st.2.1 ++ [x.2.1], true) := by
            unfold teStepE teStep
            rw [h1, hx]
            simp [hav, hH]
          rw [hst] at h2
          rw [foldl_teStepE_done rfl] at h2
          exact absurd h2 (by simp)
        · rw [Bool.not_eq_true] at hH
          have hst : teStepE st x = (st.1 ++ [r], st.2.1 ++ [x.2.1], false) := by
            unfold teStepE teStep
            rw [h1, hx]
            simp [hav, hH]
          rw [hst] at h2 ⊢
          rw [ih _ rfl h2]
          simp [availMethods, hav, List.filter_cons]
    · rw [Bool.not_eq_true] at hav
      have hst : teStepE st x = st := by
        unfold teStepE teStep
        rw [h1, hav]
        simp
      rw [hst] at h2 ⊢
      rw [ih _ h1 h2]
      simp [availMethods, hav, List.filter_cons]

theorem foldl_trace_not_mem (plan : List TEEntry) :
    ∀ st : TEState, TEMethod.enhancedOcr ∉ st.2.1 →
      (∀ x ∈ plan, x.2.1 ≠ TEMethod.enhancedOcr) →
      TEMethod.enhancedOcr ∉ (plan.foldl teStepE st).2.1 := by
  induction plan with
  | nil =>
    intro st h _
    exact h
  | cons x rest ih =>
    intro st h hplan
    rw [List.foldl_cons]
    apply ih
    · unfold teStepE teStep
      split
      · exact h
      · have hnx : TEMethod.enhancedOcr ∉ st.2.1 ++ [x.2.1] := by
          intro hmem
          rcases List.mem_append.mp hmem with h1 | h1
          · exact h h1
          · simp only [List.mem_singleton] at h1
            exact hplan x (List.mem_cons_self x rest) h1.symm
        split
        · exact hnx
        · exact hnx
    · intro y hy
      exact hplan y (List.mem_cons_of_mem x hy)

/-- C6. The enhanced-OCR strategy runs only after the four table
backends have each been tried or skipped without a successful result
above confidence 0.7 (first conjunct and second conjunct: OCR is
attempted exactly when every backend result failed the test, and then
the attempt order is the full available-backend plan followed by
OCR); and as soon as one backend result passes the test the method
returns immediately — that result is the last one gathered and no
later strategy, OCR included, is attempted (third conjunct). -/
theorem extract_tables_ocr_only_after_backends (env : TableEnv) :
    ((TEMethod.enhancedOcr ∈ (extractTablesFromPdf env).2) ↔
      ∀ r ∈ (backendPhase env).1, teHigh r = false)
  ∧ (TEMethod.enhancedOcr ∈ (extractTablesFromPdf env).2 →
      (extractTablesFromPdf env).2 =
        availMethods (tePlan env) ++ [TEMethod.enhancedOcr])
  ∧ (∀ r ∈ (backendPhase env).1, teHigh r = true →
      (extractTablesFromPdf env).1 = (backendPhase env).1 ∧
      (backendPhase env).1.getLast? = some r ∧
      TEMethod.enhancedOcr ∉ (extractTablesFromPdf env).2) := by
  have hplan : ∀ x ∈ tePlan env, x.2.1 ≠ TEMethod.enhancedOcr := by
    intro x hx
    simp only [tePlan, List.mem_cons, List.mem_singleton,
      List.not_mem_nil, or_false] at hx
    rcases hx with rfl | rfl | rfl | rfl <;> simp
  have hnotin : TEMethod.enhancedOcr ∉ (backendPhase env).2.1 :=
    foldl_trace_not_mem (tePlan env) ([], [], false) (by simp) hplan
  have hinv : teInv (backendPhase env) :=
    foldl_teStepE_inv (tePlan env) ([], [], false) (Or.inl ⟨rfl, by simp⟩)
  by_cases hdone : (backendPhase env).2.2 = true
  · have hout1 : (extractTablesFromPdf env).1 = (backendPhase env).1 := by
      unfold extractTablesFromPdf teStep
      rw [hdone]
      simp
    have hout2 : (extractTablesFromPdf env).2 = (backendPhase env).2.1 := by
      unfold extractTablesFromPdf teStep
      rw [hdone]
      simp
    rcases hinv with ⟨hf, _⟩ | ⟨_, pre, last, hsl, hplow, hlast⟩
    · rw [hdone] at hf
      exact absurd hf (by simp)
    refine ⟨⟨?_, ?_⟩, ?_, ?_⟩
    · intro hocr
      rw [hout2] at hocr
      exact absurd hocr hnotin
    · intro hlow
      have hmem : last ∈ (backendPhase env).1 := by
        rw [hsl]
        simp
      exact absurd (hlow last hmem) (by simp [hlast])
    · intro hocr
      rw [hout2] at hocr
      exact absurd hocr hnotin
    · intro r hr hH
      refine ⟨hout1, ?_, ?_⟩
      · rw [hsl] at hr
        rcases List.mem_append.mp hr with h1 | h1
        · exact absurd (hplow r h1) (by simp [hH])
        · simp only [List.mem_singleton] at h1
          rw [hsl, h1]
          exact List.getLast?_concat pre
      · rw [hout2]
        exact hnotin
  · rw [Bool.not_eq_true] at hdone
    rcases hinv with ⟨_, hlow⟩ | ⟨ht, _⟩
    swap
    · rw [hdone] at ht
      exact absurd ht (by simp)
    have hout1 : (extractTablesFromPdf env).1 = (backendPhase env).1 ∨
        ∃ r, env.ocrR = Except.ok r ∧
          (extractTablesFromPdf env).1 = (backendPhase env).1 ++ [r] := by
      unfold extractTablesFromPdf teStep
      rw [hdone]
      rcases hocr : env.ocrR with e | r
      · left
        simp
      · right
        exact ⟨r, rfl, by simp⟩
    have hout2 : (extractTablesFromPdf env).2 =
        (backendPhase env).2.1 ++ [TEMethod.enhancedOcr] := by
      unfold extractTablesFromPdf teStep
      rw [hdone]
      rcases hocr : env.ocrR with e | r <;> simp
    have htrace : (backendPhase env).2.1 = availMethods (tePlan env) := by
      have := foldl_trace (tePlan env) ([], [], false) rfl
      unfold backendPhase at hdone ⊢
      rw [this hdone]
      simp
    refine ⟨⟨fun _ => hlow, fun _ => ?_⟩, fun _ => ?_, ?_⟩
    · rw [hout2]
      exact List.mem_append_right _ (by simp)
    · rw [hout2, htrace]
    · intro r hr hH
      exact absurd (hlow r hr) (by simp [hH])

/-- C5 witness: "OXXO GASOLINERA" contains the exact merchant OXXO
and matches the gas-station pattern, and the categorizer answers with
the exact tier result "alimentacion". -/
theorem categorize_exact_tier_precedence_witness :
    ∃ c, tierExact (pyUpper "OXXO GASOLINERA".data) = some c ∧
         categorizeMexicanTransaction "OXXO GASOLINERA" = some c :=
  categorize_exact_tier_precedence "OXXO GASOLINERA"
    ⟨("OXXO", "alimentacion"), by decide, by decide⟩
    ⟨(wbAlt ["GAS", "GASOLINERA", "ESTACION DE SERVICIO", "PEMEX", "SHELL",
             "BP", "MOBIL", "REPSOL"], "gasolineras"),
     List.mem_cons_of_mem _ (List.mem_cons_of_mem _ (List.mem_cons_of_mem _
       (List.mem_cons_of_mem _ (List.mem_cons_self _ _)))),
     by decide⟩

/-- C4 witness: with a model that answers text holding no JSON object,
the batch categorizer returns the empty mapping without raising. -/
theorem batch_malformed_discards_all_witness :
    batchCategorizeRaw c4jl c4env ["UNKNOWN SHOP 123"] = Except.ok [] :=
  (batch_malformed_discards_all c4jl c4env
    (by
      intro ds r h
      injection h with h2
      rw [← h2]
      unfold respMalformed
      rw [show braceBlock (pyStrip ("no json here" : String).data) = none from
        by decide]
      exact trivial)).1 ["UNKNOWN SHOP 123"]

/-- C6 witness: with every backend raising, OCR is attempted and the
attempt order is the available backends followed by OCR. -/
theorem extract_tables_ocr_only_after_backends_witness :
    (extractTablesFromPdf c6demoEnv).2 =
      availMethods (tePlan c6demoEnv) ++ [TEMethod.enhancedOcr] :=
  (extract_tables_ocr_only_after_backends c6demoEnv).2.1 (by decide)

/-! ## Concrete evaluations

The remaining theorems evaluate the embedded code on concrete inputs,
which requires the rational-number operations to reduce. -/

attribute [semireducible] Rat.add Rat.mul Rat.inv Rat.sub Rat.ofScientific

/-- C1.  For the input line `15-ENE-2023 OXXO MONTERREY $55.80` inside
a regular-transactions section, the claim expects one transaction
`{2023-01-15, "OXXO MONTERREY", -55.80, charge, "alimentacion"}`; the
code instead extracts nothing.  The condusef regular-line regex
requires whitespace right after the `DD-MMM` day-month, so a
`DD-MMM-YYYY` date can never match (contradicting the inline example
`15-ENE-2023 OXXO ROMA $150.00` above the regex); the production
caller passes the type string `regular_transactions`, which selects no
branch at all; and the Mexican template pattern requires two dates per
line.  This theorem evaluates both extractors at the failing input. -/
theorem c1_regular_line_extracts_nothing :
    condusefExtractFromTableText "15-ENE-2023 OXXO MONTERREY $55.80".data
      "regular" 2023 = []
  ∧ condusefExtractFromTableText "15-ENE-2023 OXXO MONTERREY $55.80".data
      "regular_transactions" 2023 = []
  ∧ extractTransactions
      "DESGLOSE DE MOVIMIENTOS\n15-ENE-2023 OXXO MONTERREY $55.80\n".data =
      ([], 0) := by
  refine ⟨by decide, by decide, by decide⟩

/-- C2 counterexample: all sub-confidences are 1 and the transaction
count is zero, yet `validate_extraction` reports `is_valid=True` —
the zero count only produces a warning, contradicting the claim that
a zero count forces `is_valid=False`. -/
theorem validateExtraction_zero_count_still_valid :
    c2Data.transactions = some [] ∧
    (validateExtraction c2Data).is_valid = true ∧
    (validateExtraction c2Data).confidence = 1 := by
  refine ⟨rfl, by decide, by decide⟩

/-- C2 amended witness: at the counterexample data the zero transaction
count appends exactly the no-transactions warning. -/
theorem validateExtraction_amended_witness :
    (validateExtraction c2Data).warnings = ["No transactions found"] :=
  (validateExtraction_amended c2Data).2.2.1 [] rfl rfl

set_option maxRecDepth 100000 in
/-- C7 witness: on a concrete statement with one OXXO transaction the
parse result carries category "alimentacion", which is non-empty. -/
theorem parse_statement_category_floor_witness :
    ∃ c, c7tx.category = some c ∧ c ≠ "" :=
  parse_statement_category_floor c7jl c7env c7text c7data [c7tx]
    (by decide) (by decide) c7tx (by decide)

end SentidoFinanciero
